import Mathlib

/-!
Verification development for the `.obj` scanner / schema-driven parser core of
the go-render repository.

The development shallowly embeds, in Lean, the final iteration of the core:

* the character-level tokenizer `Scanner` (`src/obj/scanner/scanner.go`):
  its 9 symbol classes, 11-state character FSM, `Next`, and `SkipLine`;
* the FSM compiler `builder` (`src/obj/parser/builder.go`): row builders,
  parameter descriptions, the recursive branch generation for repeated
  composite fields with optional subfields, and `buildMachine`;
* the two compiled schemas of the parser registry (`types.Vertex` and
  `types.Face`, from `src/obj/parser/types/types.go`), the keyword
  registry and the dispatcher loop (`Parser.Next`).

Modelling conventions, applied throughout:

* The `io.Reader` byte source together with the 255-byte ring buffer of the
  scanner is modelled as the plain list of not-yet-consumed bytes: `has`
  is `rem ≠ []`, `get` is `rem.head`, `step` drops one byte.  The scanner
  never looks at the buffer other than through `has`/`get`/`step`.
* `float64` values produced by `strconv.ParseFloat` are modelled as exact
  rationals.  The scanner only ever feeds `ParseFloat` lexemes of the shape
  `-?digits(.digits)?`; the decimal-to-binary rounding of values that are
  not exactly representable is not modelled (all inputs appearing in the
  claims are exactly representable).
* `strconv.ParseInt(_, 10, 64)` is modelled with its 64-bit range check.
* A setter's conversion failure (`setter.set` returning a Go `error`) is
  modelled as `Option.none`; the text carried by such semantic errors is
  not modelled (no claim exercises it).
-/

/-! ### Tokens (src/obj/scanner/scanner.go, `TokenType`) -/

inductive Tok where
  | Word
  | Int
  | Float
  | Slash
  | Space
  | EOL
  | EOF
  | Unknown
  | Comment
deriving DecidableEq, Repr

/-- The index of a token kind, as in the Go `TokenType` constants
(`scanner.TokensCount = 9`). -/
def Tok.idx : Tok → Nat
  | .Word => 0
  | .Int => 1
  | .Float => 2
  | .Slash => 3
  | .Space => 4
  | .EOL => 5
  | .EOF => 6
  | .Unknown => 7
  | .Comment => 8

/-- The nine token kinds in index order. -/
def tokAll : List Tok :=
  [ .Word, .Int, .Float, .Slash, .Space, .EOL, .EOF, .Unknown, .Comment ]

/-- `tokenTypeNamesMap` / `TokenType.String` of the scanner. -/
def Tok.str : Tok → String
  | .Word => "WORD"
  | .Int => "INT"
  | .Float => "FLOAT"
  | .Slash => "SLASH"
  | .Space => "SPACE"
  | .EOL => "EOL"
  | .EOF => "EOF"
  | .Unknown => "UNKNOWN"
  | .Comment => "COMMENT"

/-! ### Symbol classes and the scanner state matrix -/

/-- `getSymbolType` of the scanner: classifies a byte into one of the nine
symbol classes, returned here as the class index
(eol 0, space 1, hash 2, slash 3, minus 4, dot 5, digit 6, letter 7, other 8). -/
def symT (b : Nat) : Nat :=
  if b = 10 then 0
  else if b = 32 then 1
  else if b = 9 then 1
  else if b = 35 then 2
  else if b = 47 then 3
  else if b = 45 then 4
  else if b = 46 then 5
  else if b = 95 then 7
  else if 48 ≤ b ∧ b ≤ 57 then 6
  else if (97 ≤ b ∧ b ≤ 122) ∨ (65 ≤ b ∧ b ≤ 90) then 7
  else 8

/-- The scanner states, by index, as in the Go `stateType` constants:
start 0, skipLine 1, foundEol 2, foundSpace 3, foundSlash 4, foundMinus 5,
foundDot 6, foundInt 7, foundFloat 8, foundWord 9, unknown 10. -/
def scanMatrix : List (List Nat) :=
  [ [2, 0, 0, 0, 0, 0, 0, 0, 0, 0, 0],
    [3, 1, 0, 3, 0, 0, 0, 0, 0, 0, 0],
    [1, 1, 0, 0, 0, 0, 0, 0, 0, 0, 0],
    [4, 1, 0, 0, 0, 0, 0, 0, 0, 0, 0],
    [5, 1, 0, 0, 0, 10, 10, 10, 10, 10, 10],
    [10, 1, 0, 0, 0, 10, 10, 6, 10, 10, 10],
    [7, 1, 0, 0, 0, 7, 8, 7, 8, 9, 10],
    [9, 1, 0, 0, 0, 10, 10, 10, 10, 9, 10],
    [10, 1, 0, 0, 0, 10, 10, 10, 10, 10, 10] ]

/-- `matrix[getSymbolType(symbol)][state]` of the scanner. -/
def scanTrans (sym state : Nat) : Nat :=
  (scanMatrix.getD sym []).getD state 0

/-- `tokenTypeMap` of the scanner: the token kind produced when the machine
steps from the given state back to `start`. -/
def tokenTypeMap (state : Nat) : Tok :=
  ([Tok.Unknown, .Comment, .EOL, .Space, .Slash, .Unknown, .Unknown, .Int,
    .Float, .Word, .Unknown].getD state .Unknown)

/-! ### `Scanner.Next` -/

/-- The body of the `for scanner.has()` loop of `Scanner.Next`.  Returns the
produced token kind, its lexeme, the remaining input, and whether the loop
ended by a transition to `start` (`true`) or by running out of input
(`false`).  The byte that triggers the transition to `start` is not
consumed, exactly as in the source (no `scanner.step()` on that path). -/
def nextLoop : Nat → List Nat → List Nat → Tok × List Nat × List Nat × Bool
  | state, acc, [] => (tokenTypeMap state, acc.reverse, [], false)
  | state, acc, b :: rest =>
    let t := tokenTypeMap state
    let s2 := scanTrans (symT b) state
    if s2 = 0 then (t, acc.reverse, b :: rest, true)
    else nextLoop s2 (b :: acc) rest

/-- One call of `Scanner.Next` with comment skipping disabled: the `EOF`
short-circuit followed by the token loop. -/
def scanNextRaw (input : List Nat) : Tok × List Nat × List Nat × Bool :=
  match input with
  | [] => (.EOF, [], [], false)
  | b :: rest => nextLoop 0 [] (b :: rest)

/-- `Scanner.Next` with a configurable `SkipComments`: when the token loop
ends with a transition to `start` and the produced token is a comment that
should be skipped, the scanner recurses (`return scanner.Next()`).  The
recursion is bounded by a fuel argument; `scanNext` below supplies enough
fuel for the recursion never to run out. -/
def scanNextF (skip : Bool) : Nat → List Nat → Tok × List Nat × List Nat
  | 0, input => (.EOF, [], input)
  | fuel + 1, input =>
    match scanNextRaw input with
    | (t, lex, rest, ended) =>
      if skip ∧ ended ∧ t = .Comment then scanNextF skip fuel rest
      else (t, lex, rest)

/-- `Scanner.Next`: the fuel `input.length + 1` always suffices, because each
skipped comment consumes at least one byte. -/
def scanNext (skip : Bool) (input : List Nat) : Tok × List Nat × List Nat :=
  scanNextF skip (input.length + 1) input

/-! ### Scanner state seen by the parser: remaining bytes and `switchLine`

The dispatcher uses, besides `Next`, only `SkipLine` (and the
line/column bookkeeping, which feeds diagnostics formatting only and is not
modelled).  `SkipLine` consults the `switchLine` flag, which in the source
is true exactly when the byte consumed most recently was a newline. -/

structure Scan where
  rem : List Nat
  sw : Bool
deriving DecidableEq, Repr

/-- `Scanner.Next` at the `Scan` level.  The `switchLine` flag after a call
reflects the last byte consumed: bytes are consumed only as token lexemes
(skipped comment lexemes never end in a newline and are never the last
consumption of a call that consumes anything, so the returned lexeme
suffices). -/
def scanStep (skip : Bool) (s : Scan) : Tok × List Nat × Scan :=
  match scanNext skip s.rem with
  | (t, lex, rest) =>
    (t, lex, ⟨rest, if lex = [] then s.sw else decide (lex.getLast? = some 10)⟩)

/-- The consumption loop of `Scanner.SkipLine`: consume bytes until a newline
has been consumed; track `switchLine` exactly as `step` does. -/
def skipLineGo : Bool → List Nat → List Nat × Bool
  | sw, [] => ([], sw)
  | _, b :: rest => if b = 10 then (rest, true) else skipLineGo false rest

/-- `Scanner.SkipLine`: a no-op when the scanner has just crossed a line
boundary. -/
def skipLineS (s : Scan) : Scan :=
  if s.sw then s
  else
    match skipLineGo s.sw s.rem with
    | (rest, sw) => ⟨rest, sw⟩

/-! ### Numeric conversion (`strconv` as used by the setters) -/

/-- Decimal digits to a number; `none` if the list is empty or contains a
non-digit. -/
def digitsVal : List Nat → Option Nat
  | [] => none
  | [b] => if 48 ≤ b ∧ b ≤ 57 then some (b - 48) else none
  | b :: rest =>
    if 48 ≤ b ∧ b ≤ 57 then
      (digitsVal rest).map fun n => (b - 48) * 10 ^ rest.length + n
    else none

/-- `strconv.ParseInt(tok, 10, 64)` on the lexemes the scanner can produce
(`-?digits`), including the 64-bit range check; out-of-range input makes the
setter fail. -/
def parseIntB (l : List Nat) : Option Int :=
  match l with
  | 45 :: rest => (digitsVal rest).bind fun n =>
      if (n : Int) ≤ 2 ^ 63 then some (-(n : Int)) else none
  | _ => (digitsVal l).bind fun n =>
      if (n : Int) ≤ 2 ^ 63 - 1 then some (n : Int) else none

/-- Helper for `parseFloatB`: split a byte list at the first `'.'`. -/
def splitDot : List Nat → List Nat × Option (List Nat)
  | [] => ([], none)
  | b :: rest =>
    if b = 46 then ([], some rest)
    else
      match splitDot rest with
      | (ip, fp) => (b :: ip, fp)

/-- `strconv.ParseFloat` on the lexemes the scanner can feed it
(`-?digits` from Int tokens, `-?digits.digits` from Float tokens), as an
exact rational. -/
def parseFloatB (l : List Nat) : Option Rat :=
  match l with
  | 45 :: rest =>
    (match splitDot rest with
     | (ip, none) => (digitsVal ip).map fun n => -(mkRat n 1)
     | (ip, some fp) =>
       match digitsVal ip, digitsVal fp with
       | some n, some f => some (-(mkRat (n * 10 ^ fp.length + f) (10 ^ fp.length)))
       | _, _ => none)
  | _ =>
    (match splitDot l with
     | (ip, none) => (digitsVal ip).map fun n => mkRat n 1
     | (ip, some fp) =>
       match digitsVal ip, digitsVal fp with
       | some n, some f => some (mkRat (n * 10 ^ fp.length + f) (10 ^ fp.length))
       | _, _ => none)

/-! ### Element records (src/obj/parser/types/types.go) -/

/-- `types.Vertex`: `v x y z [w]`, four `float64` fields, `W` optional. -/
structure VertexRec where
  X : Rat
  Y : Rat
  Z : Rat
  W : Rat
deriving DecidableEq, Repr

/-- The zero `types.Vertex` produced by `reflect.New`. -/
def vzero : VertexRec := ⟨0, 0, 0, 0⟩

/-- One element of `types.Face.Vertices`: `Index`, optional `Texture`,
optional `Normal`, all `int`. -/
structure FaceVert where
  Index : Int
  Texture : Int
  Normal : Int
deriving DecidableEq, Repr

/-- `types.Face`: a slice of face vertices (`min:"3"`, slash-delimited). -/
structure FaceRec where
  Vertices : List FaceVert
deriving DecidableEq, Repr

/-- The zero `types.Face`. -/
def fzero : FaceRec := ⟨[]⟩

/-- The meaning of an FSM action: it receives the token lexeme and the
element under construction and either updates the element or fails (a
semantic conversion error). -/
def Act (α : Type) := List Nat → α → Option α

/-- An action slot of the compiled machine.  The builder attaches setters to
transitions as opaque values (tags of type `σ`, interpreted by the runner);
`buildMachine` pre-fills the reserved states with the invoked-in-start/err
rejection action and the element-clearing action of the `first` state, and
completes the remaining states with the no-op action. -/
inductive MAct (σ : Type) where
  | noop
  | reject
  | clear
  | setter (s : σ)
deriving DecidableEq, Repr

/-- Modify the last slice element, as `sliceSetter` does via
`value.Index(value.Len()-1)`.  An empty slice would make the source panic;
it is unreachable because the appending `Index` setter always runs first on
each repetition. -/
def setLastFV (f : FaceRec) (g : FaceVert → FaceVert) : Option FaceRec :=
  match f.Vertices.getLast? with
  | none => none
  | some v => some ⟨f.Vertices.dropLast ++ [g v]⟩

/-- The composed setter for `Face.Vertices[_].Index`:
`structSetter(0, sliceAppender(sliceSetter(structSetter(0, intSetter))))` —
append a fresh zero vertex, then set its index. -/
def faceIndexAct : Act FaceRec := fun tok f =>
  (parseIntB tok).map fun n => ⟨f.Vertices ++ [⟨n, 0, 0⟩]⟩

/-- The composed setter for `Face.Vertices[_].Texture`:
`structSetter(0, sliceSetter(structSetter(1, intSetter)))`. -/
def faceTextureAct : Act FaceRec := fun tok f =>
  (parseIntB tok).bind fun n => setLastFV f fun v => { v with Texture := n }

/-- The composed setter for `Face.Vertices[_].Normal`. -/
def faceNormalAct : Act FaceRec := fun tok f =>
  (parseIntB tok).bind fun n => setLastFV f fun v => { v with Normal := n }

/-- `structSetter(0, floatSetter)` for `Vertex.X`. -/
def vertexXAct : Act VertexRec := fun tok v =>
  (parseFloatB tok).map fun q => { v with X := q }

/-- `structSetter(1, floatSetter)` for `Vertex.Y`. -/
def vertexYAct : Act VertexRec := fun tok v =>
  (parseFloatB tok).map fun q => { v with Y := q }

/-- `structSetter(2, floatSetter)` for `Vertex.Z`. -/
def vertexZAct : Act VertexRec := fun tok v =>
  (parseFloatB tok).map fun q => { v with Z := q }

/-- `structSetter(3, floatSetter)` for `Vertex.W`. -/
def vertexWAct : Act VertexRec := fun tok v =>
  (parseFloatB tok).map fun q => { v with W := q }

/-! ### Error-message constructors (src/obj/parser/builder.go) -/

/-- `noErrorMessage`. -/
def noErrorMessage : String := ""

/-- `impossibleTokenInStartStateMessage`. -/
def impossibleTokenInStartStateMessage (t : Tok) : String :=
  "impossible token received in the start state - " ++ t.str

/-- `impossibleTokenAfterDescribingElementMessage`. -/
def impossibleTokenAfterDescribingElementMessage (elem : String) (t : Tok) : String :=
  "impossible token received after describing a " ++ elem ++ " - " ++ t.str

/-- `unexpectedTokenAfterDescribingElementMessage`. -/
def unexpectedTokenAfterDescribingElementMessage (elem : String) (t : Tok) : String :=
  "unexpected token received after describing a " ++ elem ++ " - " ++ t.str

/-- `impossibleTokenMessage`. -/
def impossibleTokenMessage (name : String) (t : Tok) : String :=
  "impossible token received when reading the " ++ name ++ " - " ++ t.str

/-- `invalidTokenMessage`. -/
def invalidTokenMessage (name : String) (expected received : Tok) : String :=
  "invalid " ++ name ++ ", expected: " ++ expected.str ++ ", received: " ++ received.str

/-- `parametersNotSpecifiedMessage`. -/
def parametersNotSpecifiedMessage (paramNames : List String) : String :=
  if paramNames.length = 1 then
    "parameter " ++ paramNames.headD "" ++ " is not specified"
  else
    "parameters " ++ String.intercalate ", " paramNames ++ " are not specified"

/-- `invalidParameterFormatMessage`. -/
def invalidParameterFormatMessage (specific base : String) (expected received : Tok) : String :=
  "invalid format for description of the " ++ specific ++
    ", it must be the same as the first " ++ base ++ ", expected: " ++
    expected.str ++ ", received: " ++ received.str

/-- `delimiterBetween`. -/
def delimiterBetween (predecessor successor : String) : String :=
  "delimiter between " ++ predecessor ++ " and " ++ successor

/-- `tokenAfter`. -/
def tokenAfter (name : String) : String :=
  "token after " ++ name

/-! ### Row builders and the builder state

The Go builder mutates `rowBuilder` values through retained pointers, also
after further rows were appended; the embedding replaces each pointer by the
row's index into the row list.  The mutable name of the slice element's
`structParameter` (changed by `changeName` while the builder runs, and read
by the message constructors inside the update closures at their execution
time) is carried in the builder state as `curName`. -/

/-- Go `stateAction`: target state of a transition plus the action attached
to it (`nil` action = `none`). -/
structure StateAction (σ : Type) where
  state : Nat
  act : Option σ
deriving DecidableEq, Repr

/-- Go `rowBuilder`: one future matrix row (indexed by `Tok.idx`) and its
error-message row. -/
structure RowB (σ : Type) where
  sa : List (StateAction σ)
  er : List String
deriving DecidableEq, Repr

/-- `newRowBuilder()`: zero-valued row (all transitions to state 0 with no
action and no message). -/
def defRow (σ : Type) : RowB σ :=
  ⟨List.replicate 9 ⟨0, none⟩, List.replicate 9 noErrorMessage⟩

/-- The builder state: the accumulated rows (`builder.builders`, one per
machine state, in allocation order — stored as the function from row index
to row, together with the number of allocated rows) and the current name of
the repeated composite's element parameter. -/
structure Bld (σ : Type) where
  rows : List (RowB σ)
  curName : String

/-- Read a row by index. -/
def getRowB (b : Bld σ) (i : Nat) : RowB σ := b.rows.getD i (defRow σ)

/-- Replace a row by index. -/
def setRowB (b : Bld σ) (i : Nat) (r : RowB σ) : Bld σ :=
  { b with rows := b.rows.set i r }

/-- `rowBuilder.onToken`. -/
def onTok (b : Bld σ) (i : Nat) (t : Tok) (s : Nat) (a : Option σ) : Bld σ :=
  let r := getRowB b i
  setRowB b i ⟨r.sa.set t.idx ⟨s, a⟩, r.er.set t.idx noErrorMessage⟩

/-- `rowBuilder.onTokenError` (the target is the reserved `err` state 1). -/
def onTokErr (b : Bld σ) (i : Nat) (t : Tok) (msg : String) : Bld σ :=
  let r := getRowB b i
  setRowB b i ⟨r.sa.set t.idx ⟨1, none⟩, r.er.set t.idx msg⟩

/-- `rowBuilder.onEnd`: EOL and EOF transition to `start`. -/
def onEnd (b : Bld σ) (i : Nat) : Bld σ :=
  onTok (onTok b i .EOL 0 none) i .EOF 0 none

/-- `rowBuilder.onEndError`. -/
def onEndErr (b : Bld σ) (i : Nat) (msg : String) : Bld σ :=
  onTokErr (onTokErr b i .EOL msg) i .EOF msg

/-- `builder.nextState()`: the index the next allocated row will get. -/
def nextState (b : Bld σ) : Nat := b.rows.length

/-- `builder.nextEmptyRow()`: allocate a row, returning its index. -/
def nextEmptyRow (b : Bld σ) : Bld σ × Nat :=
  ({ b with rows := b.rows ++ [defRow σ] }, b.rows.length)

/-- `builder.nextParameterRow`. -/
def nextParameterRow (b : Bld σ) (name : String) (expected : Tok) : Bld σ × Nat :=
  match nextEmptyRow b with
  | (b, i) =>
    let b := onTokErr b i .Slash (invalidTokenMessage name expected .Slash)
    let b := onTokErr b i .Space (impossibleTokenMessage name .Space)
    let b := onTokErr b i .Unknown (invalidTokenMessage name expected .Unknown)
    let b := onTokErr b i .Comment (impossibleTokenMessage name .Comment)
    (b, i)

/-- `builder.nextDelimiterRow`. -/
def nextDelimiterRow (b : Bld σ) (name : String) : Bld σ × Nat :=
  match nextEmptyRow b with
  | (b, i) =>
    let b := onTokErr b i .Word (impossibleTokenMessage name .Word)
    let b := onTokErr b i .Int (impossibleTokenMessage name .Int)
    let b := onTokErr b i .Float (impossibleTokenMessage name .Float)
    let b := onTokErr b i .Unknown (impossibleTokenMessage name .Unknown)
    let b := onTokErr b i .Comment (impossibleTokenMessage name .Comment)
    (b, i)

/-- `builder.waitSpace`. -/
def waitSpace (b : Bld σ) (name : String) (unread : List String) : Bld σ :=
  match nextDelimiterRow b name with
  | (b, i) =>
    let b := onTokErr b i .Slash (invalidTokenMessage name .Space .Slash)
    let st := nextState b
    let b := onTok b i .Space st none
    if unread ≠ [] then onEndErr b i (parametersNotSpecifiedMessage unread)
    else onEnd b i

/-- `builder.waitSlash`. -/
def waitSlash (b : Bld σ) (name : String) (unread : List String) : Bld σ :=
  match nextDelimiterRow b name with
  | (b, i) =>
    let b := onTokErr b i .Space (invalidTokenMessage name .Slash .Space)
    let st := nextState b
    let b := onTok b i .Slash st none
    if unread ≠ [] then onEndErr b i (parametersNotSpecifiedMessage unread)
    else onEnd b i

/-! ### Parameters -/

/-- `baseParameter`: a name, the expected token kind of its setter и the
setter itself.  (`setter.changeName` only rewrites the message carried by
semantic conversion errors, which are modelled as a bare `none`.) -/
structure BaseParam (σ : Type) where
  name : String
  expected : Tok
  act : σ

/-- A placeholder for out-of-range list reads; never actually read in the
builds performed here. -/
def dummyBase (σ : Type) [Inhabited σ] : BaseParam σ := ⟨"", .Word, default⟩

/-- `baseParameter.baseUpdate`: fill a parameter row.  `Float`-typed
parameters accept both `Int` and `Float` lexemes; note that the Go code
attaches the setter action to the `Int` transition and `nil` to the `Float`
transition into the same state, which `buildMachine` merges into the setter
being the action of the target state. -/
def baseUpdate (p : BaseParam σ) (b : Bld σ) (row st : Nat) (unread : List String) : Bld σ :=
  let b :=
    if p.expected = .Word then onTok b row .Word st (some p.act)
    else onTokErr b row .Word (invalidTokenMessage p.name p.expected .Word)
  let b :=
    if p.expected = .Int ∨ p.expected = .Float then onTok b row .Int st (some p.act)
    else onTokErr b row .Int (invalidTokenMessage p.name p.expected .Int)
  let b :=
    if p.expected = .Float then onTok b row .Float st none
    else onTokErr b row .Float (invalidTokenMessage p.name p.expected .Float)
  if unread ≠ [] then onEndErr b row (parametersNotSpecifiedMessage unread)
  else onEnd b row

/-- `structParameter` (for the repeated composite's element): delimiter,
subfield parameters and the count of required (non-optional) subfields.
The parameter's mutable display name lives in `Bld.curName`. -/
structure StructParam (σ : Type) where
  delim : Tok
  params : List (BaseParam σ)
  requiredCount : Nat

/-- `structParameter.name(num)`: `"<subfield> of the <current name>"`. -/
def spSubName [Inhabited σ] (b : Bld σ) (sp : StructParam σ) (num : Nat) : String :=
  (sp.params.getD num (dummyBase σ)).name ++ " of the " ++ b.curName

/-- `structParameter.allNames(to)`. -/
def spAllNames [Inhabited σ] (b : Bld σ) (sp : StructParam σ) (upTo : Nat) : List String :=
  (List.range upTo).map (spSubName b sp)

/-- The loop body of `structParameter.updateRequired`, iterating `i` over the
required subfields, with `k` the remaining number of iterations. -/
def updateRequiredGo [Inhabited σ] (sp : StructParam σ) (unread : List String) :
    Nat → Nat → Bld σ → Bld σ
  | _, 0, b => b
  | i, k + 1, b =>
    let param := sp.params.getD i (dummyBase σ)
    let name := unread.getD i ""
    match nextParameterRow b name param.expected with
    | (b, row) =>
      let st := nextState b
      let b := baseUpdate param b row st (unread.drop i)
      let b :=
        if i ≠ sp.requiredCount - 1 then
          match sp.delim with
          | .Space => waitSpace b (delimiterBetween name (unread.getD (i + 1) "")) (unread.drop (i + 1))
          | .Slash => waitSlash b (delimiterBetween name (unread.getD (i + 1) "")) (unread.drop (i + 1))
          | _ => b
        else b
      updateRequiredGo sp unread (i + 1) k b

/-- `structParameter.updateRequired`. -/
def updateRequired [Inhabited σ] (sp : StructParam σ) (b : Bld σ) (unread : List String) : Bld σ :=
  updateRequiredGo sp unread 0 sp.requiredCount b

/-- `structSliceParameter`: the repeated composite parameter (name, minimum
repetition count, element parameter). -/
structure SSlice (σ : Type) where
  name : String
  min : Nat
  sp : StructParam σ

/-- `structSliceParameter.name(num)`. -/
def ssName (p : SSlice σ) (num : Nat) : String :=
  p.name ++ " number " ++ toString (num + 1)

/-- `structSliceParameter.names()`. -/
def ssNames (p : SSlice σ) : List String :=
  (List.range p.min).map (ssName p)

/-! ### `structSliceParameter.updateRecursive`

The Go recursion is parameterised by `paramNumber`; here the countdown
`k = params.length - paramNumber` is carried alongside to make the recursion
structural (the Go guard `paramNumber < len(p.param.params)` is exactly
`k > 0`).  The `update`, `noParamUpdate` and `hasParamUpdate` closures mutate
the shared builder in the source; here they are functions from builder state
to builder state, and the mutable element name they read at execution time
(`p.param`'s name) is `Bld.curName`. -/

/-- The trailing repetition loop of `updateRecursive` (the `for i := 1;
i < p.min; i++` loop run when `lastSlash` is false), with `k` the remaining
iteration count. -/
def ssTailGo [Inhabited σ] (p : SSlice σ) (upd : Bld σ → List String → Bld σ) (paramNumber : Nat) :
    Nat → Nat → Bld σ → Bld σ
  | _, 0, b => b
  | i, k + 1, b =>
    let sliceNames := ssNames p
    let name := sliceNames.getD i ""
    let b := { b with curName := name }
    let b := upd b (spAllNames b p.sp paramNumber ++ sliceNames.drop i)
    let b :=
      if i ≠ p.min - 1 then
        waitSpace b (delimiterBetween name (sliceNames.getD (i + 1) ""))
          (sliceNames.drop (i + 1))
      else waitSpace b (tokenAfter name) []
    ssTailGo p upd paramNumber (i + 1) k b

/-- The whole `if !lastSlash { … }` trailer of `updateRecursive`: the
required repetitions 2 … min, then the unbounded "additional" repetition
loop. -/
def ssTail [Inhabited σ] (p : SSlice σ) (upd : Bld σ → List String → Bld σ) (paramNumber : Nat)
    (b : Bld σ) : Bld σ :=
  let b := ssTailGo p upd paramNumber 1 (p.min - 1) b
  let loopState := nextState b
  let name := "additional " ++ p.name
  let b := { b with curName := name }
  let b := upd b (spAllNames b p.sp paramNumber)
  let nm := tokenAfter name
  match nextDelimiterRow b nm with
  | (b, d) =>
    let b := onTokErr b d .Slash (invalidTokenMessage nm .Space .Slash)
    let b := onTok b d .Space loopState none
    onEnd b d

/-- `structSliceParameter.updateRecursive`. -/
def updRec [Inhabited σ] (p : SSlice σ) :
    Nat → (Bld σ → List String → Bld σ) → Bld σ → Nat → Bool → Bld σ
  | 0, upd, b, paramNumber, lastSlash =>
    let sliceNames := ssNames p
    let b :=
      waitSpace b (delimiterBetween (sliceNames.getD 0 "") (sliceNames.getD 1 ""))
        (sliceNames.drop 1)
    if lastSlash then b else ssTail p upd paramNumber b
  | k + 1, upd, b, paramNumber, lastSlash =>
    let sliceNames := ssNames p
    let name := spSubName b p.sp paramNumber
    let dr :=
      if lastSlash then (b, none)
      else
        match nextDelimiterRow b (delimiterBetween (spSubName b p.sp (paramNumber - 1)) name) with
        | (b, d) =>
          let st := nextState b
          let b := onTok b d .Slash st none
          let b :=
            if 1 < p.min then onEndErr b d (parametersNotSpecifiedMessage (sliceNames.drop 1))
            else onEnd b d
          (b, some d)
    match dr with
    | (b, dRow) =>
      let param := p.sp.params.getD paramNumber (dummyBase σ)
      let noParamUpdate : Bld σ → List String → Bld σ := fun b unread =>
        let b := upd b unread
        let rbr :=
          if lastSlash then
            let extParamMessage :=
              "the " ++ (p.sp.params.getD (paramNumber - 1) (dummyBase σ)).name ++
                " is specified for " ++ b.curName ++
                ", but is not specified for the first " ++ p.name
            let onFloatErrorMsg :=
              if param.expected = .Float then extParamMessage
              else invalidParameterFormatMessage b.curName p.name .Slash .Float
            match nextEmptyRow b with
            | (b, rb) =>
              let b := onTokErr b rb .Word (invalidParameterFormatMessage b.curName p.name .Slash .Word)
              let b := onTokErr b rb .Int extParamMessage
              let b := onTokErr b rb .Float onFloatErrorMsg
              let b := onTokErr b rb .Unknown (invalidParameterFormatMessage b.curName p.name .Slash .Unknown)
              let b := onTokErr b rb .Comment (impossibleTokenMessage (spSubName b p.sp (paramNumber - 1)) .Comment)
              (b, rb)
          else nextDelimiterRow b (tokenAfter (spSubName b p.sp (paramNumber - 1)))
        match rbr with
        | (b, rb) =>
          let st := nextState b
          let b := onTok b rb .Slash st none
          let b := onTokErr b rb .Space
            ("the " ++ param.name ++ " is not specified for " ++ b.curName ++
              ", but is specified for the first " ++ p.name)
          onEndErr b rb (parametersNotSpecifiedMessage (unread.drop paramNumber))
      let hasParamUpdate : Bld σ → List String → Bld σ := fun b unread =>
        let b := noParamUpdate b unread
        let name2 := spSubName b p.sp paramNumber
        match nextEmptyRow b with
        | (b, pr) =>
          let b := onTokErr b pr .Slash
            ("the " ++ param.name ++ " is not specified for " ++ b.curName ++
              ", but is specified for the first " ++ p.name)
          let b := onTokErr b pr .Space (invalidTokenMessage name2 param.expected .Space)
          let b := onTokErr b pr .Unknown (invalidTokenMessage name2 param.expected .Unknown)
          let b := onTokErr b pr .Comment (impossibleTokenMessage name2 .Comment)
          let st := nextState b
          baseUpdate param b pr st (unread.drop paramNumber)
      match nextEmptyRow b with
      | (b, paramRow) =>
        let b := onTokErr b paramRow .Space (invalidTokenMessage name param.expected .Space)
        let b := onTokErr b paramRow .Unknown (invalidTokenMessage name param.expected .Unknown)
        let b := onTokErr b paramRow .Comment (impossibleTokenMessage name .Comment)
        let st := nextState b
        let b := baseUpdate param b paramRow st (name :: sliceNames.drop 1)
        let b := updRec p k hasParamUpdate b (paramNumber + 1) false
        let b :=
          if paramNumber ≠ p.sp.params.length - 1 then
            let st2 := nextState b
            let b := onTok b paramRow .Slash st2 none
            updRec p k noParamUpdate b (paramNumber + 1) true
          else onTokErr b paramRow .Slash (invalidTokenMessage name param.expected .Slash)
        let b :=
          match dRow with
          | some d => let st3 := nextState b; onTok b d .Space st3 none
          | none => b
        if lastSlash then b else ssTail p upd paramNumber b

/-- `structSliceParameter.update`. -/
def ssUpdate [Inhabited σ] (p : SSlice σ) (b : Bld σ) : Bld σ :=
  let b := { b with curName := ssName p 0 }
  let b := updateRequired p.sp b (ssNames p)
  updRec p (p.sp.params.length - p.sp.requiredCount)
    (fun b unread => updateRequired p.sp b unread) b p.sp.requiredCount false

/-! ### The top-level builder loop and machine assembly -/

/-- A top-level parameter of a schema, as produced by
`builder.createStructParameters` for the registered element types: either a
plain scalar field or the trailing repeated composite.  (The other parameter
shapes of the source are not exercised by any registered schema.) -/
inductive Param (σ : Type) where
  | base (p : BaseParam σ)
  | sslice (s : SSlice σ)

/-- `parameter.String()`. -/
def paramStr : Param σ → String
  | .base p => p.name
  | .sslice s => s.name ++ " parameters"

/-- `parameter.update`. -/
def paramUpdate [Inhabited σ] : Param σ → Bld σ → List String → Bld σ
  | .base p, b, unread =>
    match nextParameterRow b p.name p.expected with
    | (b, row) =>
      let st := nextState b
      baseUpdate p b row st unread
  | .sslice s, b, _ => ssUpdate s b

/-- `builder.getUnread`. -/
def getUnreadAt (paramNames : List String) (pos : Nat) : List String :=
  if pos < paramNames.length then paramNames.drop pos else []

/-- The parameter loop of `builder.build`. -/
def buildLoop [Inhabited σ] (paramNames : List String) : List (Param σ) → Nat → Bld σ → Bld σ
  | [], _, b => b
  | p :: rest, pos, b =>
    let b := paramUpdate p b (getUnreadAt paramNames pos)
    match rest with
    | [] => b
    | q :: _ =>
      let b := waitSpace b (delimiterBetween (paramStr p) (paramStr q))
        (getUnreadAt paramNames (pos + 1))
      buildLoop paramNames rest (pos + 1) b

/-- `builder.initialize`: the reserved `start` row (state 0, every token but
the leading space an error; the space moves to the reserved `first` state 2),
and the reserved `err` row (state 1).  The `Float` entry of the start row
names `INT` in its message, as in the source. -/
def initRows (elemName : String) (b : Bld σ) : Bld σ :=
  match nextEmptyRow b with
  | (b, i) =>
    let b := onTokErr b i .Word (impossibleTokenInStartStateMessage .Word)
    let b := onTokErr b i .Int (impossibleTokenInStartStateMessage .Int)
    let b := onTokErr b i .Float (impossibleTokenInStartStateMessage .Int)
    let b := onTokErr b i .Slash (impossibleTokenInStartStateMessage .Slash)
    let b := onTok b i .Space 2 none
    let b := onEndErr b i ("all parameters of the " ++ elemName ++ " are not specified")
    let b := onTokErr b i .Unknown (impossibleTokenInStartStateMessage .Unknown)
    let b := onTokErr b i .Comment (impossibleTokenInStartStateMessage .Comment)
    match nextEmptyRow b with
    | (b, j) =>
      tokAll.foldl (fun b t => onTokErr b j t "parser cannot be used in the error state") b

/-- `builder.finalize`: the two end-of-line rows appended for schemas without
a trailing slice.  The comment entries name `UNKNOWN` in their messages, as
in the source. -/
def finalizeRows (elemName : String) (b : Bld σ) : Bld σ :=
  match nextEmptyRow b with
  | (b, i) =>
    let b := onTokErr b i .Word (impossibleTokenAfterDescribingElementMessage elemName .Word)
    let b := onTokErr b i .Int (impossibleTokenAfterDescribingElementMessage elemName .Int)
    let b := onTokErr b i .Float (impossibleTokenAfterDescribingElementMessage elemName .Float)
    let b := onTokErr b i .Slash (unexpectedTokenAfterDescribingElementMessage elemName .Slash)
    let st := nextState b
    let b := onTok b i .Space st none
    let b := onEnd b i
    let b := onTokErr b i .Unknown (impossibleTokenAfterDescribingElementMessage elemName .Unknown)
    let b := onTokErr b i .Comment (impossibleTokenAfterDescribingElementMessage elemName .Unknown)
    match nextEmptyRow b with
    | (b, j) =>
      let b := onTokErr b j .Word (unexpectedTokenAfterDescribingElementMessage elemName .Word)
      let b := onTokErr b j .Int (unexpectedTokenAfterDescribingElementMessage elemName .Int)
      let b := onTokErr b j .Float (unexpectedTokenAfterDescribingElementMessage elemName .Float)
      let b := onTokErr b j .Slash (unexpectedTokenAfterDescribingElementMessage elemName .Slash)
      let b := onTokErr b j .Space (impossibleTokenAfterDescribingElementMessage elemName .Space)
      let b := onEnd b j
      let b := onTokErr b j .Unknown (unexpectedTokenAfterDescribingElementMessage elemName .Unknown)
      onTokErr b j .Comment (impossibleTokenAfterDescribingElementMessage elemName .Unknown)

/-- The compiled machine (`finiteStateMachine`): transition matrix, error
matrix and per-state actions, the latter already completed with the default
no-op action for states no transition attached an action to. -/
structure Machine (σ : Type) where
  matrix : List (List Nat)
  errors : List (List String)
  actions : List (MAct σ)
deriving DecidableEq, Repr

/-- The inner action-merge loop of `builder.buildMachine`: actions are
indexed by the target state of the transition carrying them; the first
transition (row by row, token by token) into a state fixes its action. -/
def mergeRowActs (row : List (StateAction σ)) (acts : List (Option (MAct σ))) :
    List (Option (MAct σ)) :=
  row.foldl
    (fun acts sa =>
      match sa.act with
      | none => acts
      | some a =>
        if (acts.getD sa.state none).isSome then acts
        else acts.set sa.state (some (.setter a)))
    acts

/-- `builder.buildMachine`.  The reserved states hold their pre-set actions:
`start` and `err` reject being invoked, `first` clears the element to its
zero value; states left without an action get the no-op. -/
def buildMachine (b : Bld σ) : Machine σ :=
  let pre : List (Option (MAct σ)) :=
    (List.range b.rows.length).map fun i =>
      if i = 0 ∨ i = 1 then some .reject
      else if i = 2 then some .clear
      else none
  let merged := b.rows.foldl (fun acts r => mergeRowActs r.sa acts) pre
  { matrix := b.rows.map fun r => r.sa.map (fun sa => sa.state)
    errors := b.rows.map fun r => r.er
    actions := merged.map fun o => o.getD .noop }

/-! ### The two registered schemas

`builder.createStructParameters` derives these parameter lists by reflection
over `types.Vertex` and `types.Face`; the reflection walk is instantiated
here by hand, field for field, with the names from the `name:"…"` tags and
the optional markers from the `optional:"true"` tags. -/

/-- Action tags for the `Vertex` machine: one setter per field. -/
inductive VAct where
  | x
  | y
  | z
  | w
deriving DecidableEq, Repr, Inhabited

/-- The interpretation of the `Vertex` setter tags by the composed setters of
the source. -/
def vertexInterp : VAct → Act VertexRec
  | .x => vertexXAct
  | .y => vertexYAct
  | .z => vertexZAct
  | .w => vertexWAct

/-- The parameters reflected from `types.Vertex`: four `float64` fields with
`structSetter(i, floatSetter)`, `W` optional. -/
def vertexParams : List (Param VAct) :=
  [ .base ⟨"X coordinate", .Float, .x⟩,
    .base ⟨"Y coordinate", .Float, .y⟩,
    .base ⟨"Z coordinate", .Float, .z⟩,
    .base ⟨"weight parameter", .Float, .w⟩ ]

/-- `builder.paramNames` for `types.Vertex`: only the non-optional fields. -/
def vertexParamNames : List String :=
  ["X coordinate", "Y coordinate", "Z coordinate"]

/-- `buildParser(Vertex, types.NewVertex())`: a schema without a slice keeps
`needFinalize` and appends the two finalize rows. -/
def vertexMachine : Machine VAct :=
  let b : Bld VAct := ⟨[], ""⟩
  let b := initRows "vertex" b
  let b := buildLoop vertexParamNames vertexParams 0 b
  let b := finalizeRows "vertex" b
  buildMachine b

/-- Action tags for the `Face` machine: one setter per subfield of a face
vertex. -/
inductive FAct where
  | idx
  | tex
  | nrm
deriving DecidableEq, Repr, Inhabited

/-- The interpretation of the `Face` setter tags by the composed setters of
the source. -/
def faceInterp : FAct → Act FaceRec
  | .idx => faceIndexAct
  | .tex => faceTextureAct
  | .nrm => faceNormalAct

/-- The nested-struct parameter reflected from `types.Face.Vertices`:
`index` required, `texture` and `normal` optional, all `int`
(`createNestedStructParameter` fixes the structParameter's own delimiter
field to `scanner.Space`; its `delimiter` argument is only used for tag
validation). -/
def faceSP : StructParam FAct :=
  ⟨.Space,
    [ ⟨"index", .Int, .idx⟩,
      ⟨"texture", .Int, .tex⟩,
      ⟨"normal", .Int, .nrm⟩ ],
    1⟩

/-- The parameters reflected from `types.Face`: one repeated composite,
`min:"3"`. -/
def faceParams : List (Param FAct) :=
  [ .sslice ⟨"vertex", 3, faceSP⟩ ]

/-- `builder.paramNames` for `types.Face`. -/
def faceParamNames : List String := ["vertex parameters"]

/-- `buildParser(Face, types.NewFace())`: the trailing slice clears
`needFinalize`, so no finalize rows are appended. -/
def faceMachine : Machine FAct :=
  let b : Bld FAct := ⟨[], ""⟩
  let b := initRows "face" b
  let b := buildLoop faceParamNames faceParams 0 b
  buildMachine b

/-! ### Element types, keyword registry, dispatcher

`ElementType`, `elementDeclarationsMap`, the parser registry and the
dispatcher loop `Parser.Next` are those of the `parser` package
(`src/obj/parser/parser_test.go`, lines 115–449 of the combined file).  The
run loop of the final iteration's element parser is not among the source
files (only this earlier dispatcher, the builder, and the tests are), so one
convention is modelled from the spec, see `runMachine`. -/

inductive EType where
  | Vertex
  | VertexTexture
  | VertexNormal
  | VertexParameter
  | CurveSurfaceType
  | Degree
  | BasisMatrix
  | Step
  | Point
  | Line
  | Face
  | Curve
  | Curve2D
  | Surface
  | Parameter
  | Trim
  | Hole
  | SpecialCurve
  | SpecialPoint
  | EndKeyword
  | Connect
  | Group
  | SmoothingGroup
  | MergingGroup
  | Object
  | BevelInterpolation
  | ColorInterpolation
  | DissolveInterpolation
  | LevelOfDetail
  | MapLibrary
  | UseMapping
  | UseMaterial
  | MaterialLibrary
  | ShadowObject
  | TraceObject
  | CurveApproximation
  | SurfaceApproximation
  | Call
  | Scmp
  | Csh
  | EndOfFile
deriving DecidableEq, Repr

/-- `elementsMap` / `ElementType.String`. -/
def EType.str : EType → String
  | .Vertex => "vertex"
  | .VertexTexture => "vertex texture"
  | .VertexNormal => "vertex normal"
  | .VertexParameter => "vertex parameter"
  | .CurveSurfaceType => "curve surface type"
  | .Degree => "degree"
  | .BasisMatrix => "basis matrix"
  | .Step => "step"
  | .Point => "point"
  | .Line => "line"
  | .Face => "face"
  | .Curve => "curve"
  | .Curve2D => "curve 2D"
  | .Surface => "surface"
  | .Parameter => "parameter"
  | .Trim => "trim"
  | .Hole => "hole"
  | .SpecialCurve => "special curve"
  | .SpecialPoint => "special point"
  | .EndKeyword => "end"
  | .Connect => "connect"
  | .Group => "group"
  | .SmoothingGroup => "smoothing group"
  | .MergingGroup => "merging group"
  | .Object => "object"
  | .BevelInterpolation => "bevel interpolation"
  | .ColorInterpolation => "color interpolation"
  | .DissolveInterpolation => "dissolve interpolation"
  | .LevelOfDetail => "level of detail"
  | .MapLibrary => "map library"
  | .UseMapping => "use mapping"
  | .UseMaterial => "use material"
  | .MaterialLibrary => "material library"
  | .ShadowObject => "shadow object"
  | .TraceObject => "trace object"
  | .CurveApproximation => "curve approximation technique"
  | .SurfaceApproximation => "surface approximation technique"
  | .Call => "call command"
  | .Scmp => "scmp command"
  | .Csh => "csh command"
  | .EndOfFile => "end of file"

/-- The byte sequence of an ASCII string literal. -/
def strBytes (s : String) : List Nat := s.data.map Char.toNat

/-- `elementDeclarationsMap`: leading keyword of a line to its element
type. -/
def keywordElement (lex : List Nat) : Option EType :=
  if lex = strBytes "v" then some .Vertex
  else if lex = strBytes "vt" then some .VertexTexture
  else if lex = strBytes "vn" then some .VertexNormal
  else if lex = strBytes "vp" then some .VertexParameter
  else if lex = strBytes "cstype" then some .CurveSurfaceType
  else if lex = strBytes "deg" then some .Degree
  else if lex = strBytes "bmat" then some .BasisMatrix
  else if lex = strBytes "step" then some .Step
  else if lex = strBytes "p" then some .Point
  else if lex = strBytes "l" then some .Line
  else if lex = strBytes "f" then some .Face
  else if lex = strBytes "curv" then some .Curve
  else if lex = strBytes "curv2" then some .Curve2D
  else if lex = strBytes "surf" then some .Surface
  else if lex = strBytes "parm" then some .Parameter
  else if lex = strBytes "trim" then some .Trim
  else if lex = strBytes "hole" then some .Hole
  else if lex = strBytes "scrv" then some .SpecialCurve
  else if lex = strBytes "sp" then some .SpecialPoint
  else if lex = strBytes "end" then some .EndKeyword
  else if lex = strBytes "con" then some .Connect
  else if lex = strBytes "g" then some .Group
  else if lex = strBytes "s" then some .SmoothingGroup
  else if lex = strBytes "mg" then some .MergingGroup
  else if lex = strBytes "o" then some .Object
  else if lex = strBytes "bevel" then some .BevelInterpolation
  else if lex = strBytes "c_interp" then some .ColorInterpolation
  else if lex = strBytes "d_interp" then some .DissolveInterpolation
  else if lex = strBytes "lod" then some .LevelOfDetail
  else if lex = strBytes "maplib" then some .MapLibrary
  else if lex = strBytes "usemap" then some .UseMapping
  else if lex = strBytes "usemtl" then some .UseMaterial
  else if lex = strBytes "mtllib" then some .MaterialLibrary
  else if lex = strBytes "shadow_obj" then some .ShadowObject
  else if lex = strBytes "trace_obj" then some .TraceObject
  else if lex = strBytes "ctech" then some .CurveApproximation
  else if lex = strBytes "stech" then some .SurfaceApproximation
  else if lex = strBytes "call" then some .Call
  else if lex = strBytes "scmp" then some .Scmp
  else if lex = strBytes "csh" then some .Csh
  else none

/-- The outcome of one element-parser run. -/
inductive MOut (α : Type) where
  | success (a : α)
  | fail (msg : String)

/-- Modelled from the spec: the element parser's run loop (spec §4.3; its
source file is the one piece of the final iteration missing from the
sources).  Following the dispatcher of the earlier in-repo iteration
(`Parser.Next`), it repeatedly pulls one token, takes the transition for
`(state, token kind)`, stops with the current record on reaching `start`,
stops with the error message stored for `(previous state, token kind)` on
reaching `err`, and otherwise applies the action of the state being entered
— actions are stored by target state, as `buildMachine` lays them out (its
`m.actions[sa.state]`), with the reserved `first` state's action clearing
the record.  An action's own failure (a semantic conversion error) aborts
the line like an error outcome; its message text is not modelled.  The
recursion is bounded by fuel; a run that exhausts its fuel (a machine
looping on `EOF` tokens, which the registered machines never do) fails. -/
def runMachine (m : Machine σ) (interp : σ → Act α) (empty : α) :
    Nat → Nat → α → Scan → MOut α × Scan
  | 0, _, _, s => (.fail "machine step limit exceeded", s)
  | fuel + 1, state, e, s =>
    match scanStep true s with
    | (t, lex, s2) =>
      let st2 := (m.matrix.getD state []).getD t.idx 0
      if st2 = 0 then (.success e, s2)
      else if st2 = 1 then (.fail ((m.errors.getD state []).getD t.idx ""), s2)
      else
        match m.actions.getD st2 .noop with
        | .noop => runMachine m interp empty fuel st2 e s2
        | .clear => runMachine m interp empty fuel st2 empty s2
        | .reject => (.fail "action invoked in a reserved state", s2)
        | .setter a =>
          match interp a lex e with
          | some e2 => runMachine m interp empty fuel st2 e2 s2
          | none => (.fail "semantic conversion error", s2)

/-- A record produced by the dispatcher: the registry compiles parsers for
`Vertex` and `Face` only. -/
inductive PRec where
  | vertex (v : VertexRec)
  | face (f : FaceRec)
deriving DecidableEq, Repr

/-- A diagnostic emitted through `Parser.log`: its severity and its core
message (the line/column/caret rendering around it is display only and not
modelled). -/
structure Diag where
  isError : Bool
  msg : String
deriving DecidableEq, Repr

/-- The result of one dispatch step of `Parser.Next`, before its
skip-and-recurse: a produced record, end of file, or a skipped line with its
diagnostic. -/
inductive StepRes where
  | produced (t : EType) (r : PRec)
  | eof
  | skip (d : Diag)
deriving DecidableEq, Repr

/-- The blank-skipping loop at the top of `Parser.Next` (`for tokenType ==
scanner.EOL || tokenType == scanner.Space`), fuelled. -/
def skipBlankF : Nat → Scan → Tok × List Nat × Scan
  | 0, s => (.EOF, [], s)
  | fuel + 1, s =>
    match scanStep true s with
    | (t, lex, s2) =>
      if t = .EOL ∨ t = .Space then skipBlankF fuel s2
      else (t, lex, s2)

/-- The blank-skipping loop with always-sufficient fuel (every skipped token
consumes at least one byte). -/
def skipBlank (s : Scan) : Tok × List Nat × Scan :=
  skipBlankF (s.rem.length + 1) s

/-- One dispatch step of `Parser.Next`: skip blank tokens; at `EOF` report
end of file; for a keyword with a compiled parser run it (on success the
record is produced, on failure the diagnostic is emitted and the line
skipped); for a recognized keyword without a parser warn and skip; otherwise
report a bad element name and skip. -/
def parserStepM (vm : Machine VAct) (fm : Machine FAct) (s : Scan) : StepRes × Scan :=
  match skipBlank s with
  | (t, lex, s2) =>
    if t = .EOF then (.eof, s2)
    else
      match if t = .Word then keywordElement lex else none with
      | some EType.Vertex =>
        (match runMachine vm vertexInterp vzero (s2.rem.length + 2) 0 vzero s2 with
         | (.success v, s3) => (.produced .Vertex (.vertex v), s3)
         | (.fail msg, s3) => (.skip ⟨true, msg⟩, skipLineS s3))
      | some EType.Face =>
        (match runMachine fm faceInterp fzero (s2.rem.length + 2) 0 fzero s2 with
         | (.success f, s3) => (.produced .Face (.face f), s3)
         | (.fail msg, s3) => (.skip ⟨true, msg⟩, skipLineS s3))
      | some et =>
        (.skip ⟨false, "unsupported element format - " ++ et.str⟩, skipLineS s2)
      | none =>
        (.skip ⟨true, "error in the name of the element type"⟩, skipLineS s2)

/-- The dispatch step against the machines the registry actually compiles. -/
def parserStep (s : Scan) : StepRes × Scan :=
  parserStepM vertexMachine faceMachine s

/-- `Parser.Next` with its skip-and-recurse policy, fuelled: the diagnostics
of the skipped lines, then either a produced `(ElementType, record)` or
`none` for `(EndOfFile, nil)`, and the scanner state after the call. -/
def parserNextFM (vm : Machine VAct) (fm : Machine FAct) :
    Nat → Scan → List Diag × Option (EType × PRec) × Scan
  | 0, s => ([], none, s)
  | fuel + 1, s =>
    match parserStepM vm fm s with
    | (.produced t r, s2) => ([], some (t, r), s2)
    | (.eof, s2) => ([], none, s2)
    | (.skip d, s2) =>
      match parserNextFM vm fm fuel s2 with
      | (ds, o, s3) => (d :: ds, o, s3)

/-- `Parser.Next` over given machines, with always-sufficient fuel: every
skipped line consumes at least one byte. -/
def parserNextM (vm : Machine VAct) (fm : Machine FAct) (s : Scan) :
    List Diag × Option (EType × PRec) × Scan :=
  parserNextFM vm fm (s.rem.length + 1) s

/-- `Parser.Next` against the machines the registry actually compiles. -/
def parserNext (s : Scan) : List Diag × Option (EType × PRec) × Scan :=
  parserNextM vertexMachine faceMachine s

/-- All records of a file: `Parser.Next` called repeatedly until it returns
`EndOfFile`, collecting the produced records in order and every emitted
diagnostic in order, fuelled. -/
def parserAllFM (vm : Machine VAct) (fm : Machine FAct) :
    Nat → Scan → List (EType × PRec) × List Diag × Scan
  | 0, s => ([], [], s)
  | fuel + 1, s =>
    match parserNextM vm fm s with
    | (ds, none, s2) => ([], ds, s2)
    | (ds, some tr, s2) =>
      match parserAllFM vm fm fuel s2 with
      | (outs, ds2, s3) => (tr :: outs, ds ++ ds2, s3)

/-- All records of a file over given machines, with always-sufficient fuel. -/
def parserAllM (vm : Machine VAct) (fm : Machine FAct) (s : Scan) :
    List (EType × PRec) × List Diag × Scan :=
  parserAllFM vm fm (s.rem.length + 1) s

/-- All records of a file, against the machines the registry compiles. -/
def parserAll (s : Scan) : List (EType × PRec) × List Diag × Scan :=
  parserAllM vertexMachine faceMachine s

/-! ### Substring helper used to state message-content properties -/

/-- `p` occurs at the head of the text. -/
def listLeads : List Char → List Char → Bool
  | [], _ => true
  | _ :: _, [] => false
  | a :: p, b :: t => a = b && listLeads p t

/-- `p` occurs somewhere in the text. -/
def listHasRun : List Char → List Char → Bool
  | p, [] => p.isEmpty
  | p, b :: t => listLeads p (b :: t) || listHasRun p t

/-- The first string occurs as a contiguous run of the second. -/
def strHasRun (sub s : String) : Bool := listHasRun sub.data s.data

/-! ### Golden tables

The two compiled machines, written out as literal data.  They are proved
equal to the machines assembled by the builder (`vertexMachine_eq`,
`faceMachine_eq`); the concrete parses in the claims below are evaluated
against these shallow literals. -/

/-- The `Vertex` machine as literal data. -/
def vertexMachineLit : Machine VAct :=
{ matrix := [[1, 1, 1, 1, 2, 1, 1, 1, 1],
             [1, 1, 1, 1, 1, 1, 1, 1, 1],
             [1, 3, 3, 1, 1, 1, 1, 1, 1],
             [1, 1, 1, 1, 4, 1, 1, 1, 1],
             [1, 5, 5, 1, 1, 1, 1, 1, 1],
             [1, 1, 1, 1, 6, 1, 1, 1, 1],
             [1, 7, 7, 1, 1, 1, 1, 1, 1],
             [1, 1, 1, 1, 8, 0, 0, 1, 1],
             [1, 9, 9, 1, 1, 0, 0, 1, 1],
             [1, 1, 1, 1, 10, 0, 0, 1, 1],
             [1, 1, 1, 1, 1, 0, 0, 1, 1]],
  errors := [["impossible token received in the start state - WORD",
              "impossible token received in the start state - INT",
              "impossible token received in the start state - INT",
              "impossible token received in the start state - SLASH", "",
              "all parameters of the vertex are not specified", "all parameters of the vertex are not specified",
              "impossible token received in the start state - UNKNOWN",
              "impossible token received in the start state - COMMENT"],
             ["parser cannot be used in the error state", "parser cannot be used in the error state",
              "parser cannot be used in the error state", "parser cannot be used in the error state",
              "parser cannot be used in the error state", "parser cannot be used in the error state",
              "parser cannot be used in the error state", "parser cannot be used in the error state",
              "parser cannot be used in the error state"],
             ["invalid X coordinate, expected: FLOAT, received: WORD", "", "",
              "invalid X coordinate, expected: FLOAT, received: SLASH",
              "impossible token received when reading the X coordinate - SPACE",
              "parameters X coordinate, Y coordinate, Z coordinate are not specified",
              "parameters X coordinate, Y coordinate, Z coordinate are not specified",
              "invalid X coordinate, expected: FLOAT, received: UNKNOWN",
              "impossible token received when reading the X coordinate - COMMENT"],
             ["impossible token received when reading the delimiter between X coordinate and Y coordinate - WORD",
              "impossible token received when reading the delimiter between X coordinate and Y coordinate - INT",
              "impossible token received when reading the delimiter between X coordinate and Y coordinate - FLOAT",
              "invalid delimiter between X coordinate and Y coordinate, expected: SPACE, received: SLASH", "",
              "parameters Y coordinate, Z coordinate are not specified",
              "parameters Y coordinate, Z coordinate are not specified",
              "impossible token received when reading the delimiter between X coordinate and Y coordinate - UNKNOWN",
              "impossible token received when reading the delimiter between X coordinate and Y coordinate - COMMENT"],
             ["invalid Y coordinate, expected: FLOAT, received: WORD", "", "",
              "invalid Y coordinate, expected: FLOAT, received: SLASH",
              "impossible token received when reading the Y coordinate - SPACE",
              "parameters Y coordinate, Z coordinate are not specified",
              "parameters Y coordinate, Z coordinate are not specified",
              "invalid Y coordinate, expected: FLOAT, received: UNKNOWN",
              "impossible token received when reading the Y coordinate - COMMENT"],
             ["impossible token received when reading the delimiter between Y coordinate and Z coordinate - WORD",
              "impossible token received when reading the delimiter between Y coordinate and Z coordinate - INT",
              "impossible token received when reading the delimiter between Y coordinate and Z coordinate - FLOAT",
              "invalid delimiter between Y coordinate and Z coordinate, expected: SPACE, received: SLASH", "",
              "parameter Z coordinate is not specified", "parameter Z coordinate is not specified",
              "impossible token received when reading the delimiter between Y coordinate and Z coordinate - UNKNOWN",
              "impossible token received when reading the delimiter between Y coordinate and Z coordinate - COMMENT"],
             ["invalid Z coordinate, expected: FLOAT, received: WORD", "", "",
              "invalid Z coordinate, expected: FLOAT, received: SLASH",
              "impossible token received when reading the Z coordinate - SPACE",
              "parameter Z coordinate is not specified", "parameter Z coordinate is not specified",
              "invalid Z coordinate, expected: FLOAT, received: UNKNOWN",
              "impossible token received when reading the Z coordinate - COMMENT"],
             ["impossible token received when reading the delimiter between Z coordinate and weight parameter - WORD",
              "impossible token received when reading the delimiter between Z coordinate and weight parameter - INT",
              "impossible token received when reading the delimiter between Z coordinate and weight parameter - FLOAT",
              "invalid delimiter between Z coordinate and weight parameter, expected: SPACE, received: SLASH", "", "",
              "",
              "impossible token received when reading the delimiter between Z coordinate and weight parameter - UNKNOWN",
              "impossible token received when reading the delimiter between Z coordinate and weight parameter - COMMENT"],
             ["invalid weight parameter, expected: FLOAT, received: WORD", "", "",
              "invalid weight parameter, expected: FLOAT, received: SLASH",
              "impossible token received when reading the weight parameter - SPACE", "", "",
              "invalid weight parameter, expected: FLOAT, received: UNKNOWN",
              "impossible token received when reading the weight parameter - COMMENT"],
             ["impossible token received after describing a vertex - WORD",
              "impossible token received after describing a vertex - INT",
              "impossible token received after describing a vertex - FLOAT",
              "unexpected token received after describing a vertex - SLASH", "", "", "",
              "impossible token received after describing a vertex - UNKNOWN",
              "impossible token received after describing a vertex - UNKNOWN"],
             ["unexpected token received after describing a vertex - WORD",
              "unexpected token received after describing a vertex - INT",
              "unexpected token received after describing a vertex - FLOAT",
              "unexpected token received after describing a vertex - SLASH",
              "impossible token received after describing a vertex - SPACE", "", "",
              "unexpected token received after describing a vertex - UNKNOWN",
              "impossible token received after describing a vertex - UNKNOWN"]],
  actions := [MAct.reject,
              MAct.reject,
              MAct.clear,
              MAct.setter (VAct.x),
              MAct.noop,
              MAct.setter (VAct.y),
              MAct.noop,
              MAct.setter (VAct.z),
              MAct.noop,
              MAct.setter (VAct.w),
              MAct.noop] }

/-- The `Face` machine as literal data. -/
def faceMachineLit : Machine FAct :=
{ matrix := [[1, 1, 1, 1, 2, 1, 1, 1, 1],
             [1, 1, 1, 1, 1, 1, 1, 1, 1],
             [1, 3, 1, 1, 1, 1, 1, 1, 1],
             [1, 1, 1, 4, 55, 1, 1, 1, 1],
             [1, 5, 1, 38, 1, 1, 1, 1, 1],
             [1, 1, 1, 6, 26, 1, 1, 1, 1],
             [1, 7, 1, 1, 1, 1, 1, 1, 1],
             [1, 1, 1, 1, 8, 1, 1, 1, 1],
             [1, 9, 1, 1, 1, 1, 1, 1, 1],
             [1, 1, 1, 10, 1, 1, 1, 1, 1],
             [1, 11, 1, 1, 1, 1, 1, 1, 1],
             [1, 1, 1, 12, 1, 1, 1, 1, 1],
             [1, 13, 1, 1, 1, 1, 1, 1, 1],
             [1, 1, 1, 1, 14, 1, 1, 1, 1],
             [1, 15, 1, 1, 1, 1, 1, 1, 1],
             [1, 1, 1, 16, 1, 1, 1, 1, 1],
             [1, 17, 1, 1, 1, 1, 1, 1, 1],
             [1, 1, 1, 18, 1, 1, 1, 1, 1],
             [1, 19, 1, 1, 1, 1, 1, 1, 1],
             [1, 1, 1, 1, 20, 0, 0, 1, 1],
             [1, 21, 1, 1, 1, 1, 1, 1, 1],
             [1, 1, 1, 22, 1, 1, 1, 1, 1],
             [1, 23, 1, 1, 1, 1, 1, 1, 1],
             [1, 1, 1, 24, 1, 1, 1, 1, 1],
             [1, 25, 1, 1, 1, 1, 1, 1, 1],
             [1, 1, 1, 1, 20, 0, 0, 1, 1],
             [1, 27, 1, 1, 1, 1, 1, 1, 1],
             [1, 1, 1, 28, 1, 1, 1, 1, 1],
             [1, 29, 1, 1, 1, 1, 1, 1, 1],
             [1, 1, 1, 1, 30, 1, 1, 1, 1],
             [1, 31, 1, 1, 1, 1, 1, 1, 1],
             [1, 1, 1, 32, 1, 1, 1, 1, 1],
             [1, 33, 1, 1, 1, 1, 1, 1, 1],
             [1, 1, 1, 1, 34, 0, 0, 1, 1],
             [1, 35, 1, 1, 1, 1, 1, 1, 1],
             [1, 1, 1, 36, 1, 1, 1, 1, 1],
             [1, 37, 1, 1, 1, 1, 1, 1, 1],
             [1, 1, 1, 1, 34, 0, 0, 1, 1],
             [1, 39, 1, 1, 1, 1, 1, 1, 1],
             [1, 1, 1, 1, 40, 1, 1, 1, 1],
             [1, 41, 1, 1, 1, 1, 1, 1, 1],
             [1, 1, 1, 42, 1, 1, 1, 1, 1],
             [1, 1, 1, 43, 1, 1, 1, 1, 1],
             [1, 44, 1, 1, 1, 1, 1, 1, 1],
             [1, 1, 1, 1, 45, 1, 1, 1, 1],
             [1, 46, 1, 1, 1, 1, 1, 1, 1],
             [1, 1, 1, 47, 1, 1, 1, 1, 1],
             [1, 1, 1, 48, 1, 1, 1, 1, 1],
             [1, 49, 1, 1, 1, 1, 1, 1, 1],
             [1, 1, 1, 1, 50, 0, 0, 1, 1],
             [1, 51, 1, 1, 1, 1, 1, 1, 1],
             [1, 1, 1, 52, 1, 1, 1, 1, 1],
             [1, 1, 1, 53, 1, 1, 1, 1, 1],
             [1, 54, 1, 1, 1, 1, 1, 1, 1],
             [1, 1, 1, 1, 50, 0, 0, 1, 1],
             [1, 56, 1, 1, 1, 1, 1, 1, 1],
             [1, 1, 1, 1, 57, 1, 1, 1, 1],
             [1, 58, 1, 1, 1, 1, 1, 1, 1],
             [1, 1, 1, 1, 59, 0, 0, 1, 1],
             [1, 60, 1, 1, 1, 1, 1, 1, 1],
             [1, 1, 1, 1, 59, 0, 0, 1, 1]],
  errors := [["impossible token received in the start state - WORD",
              "impossible token received in the start state - INT",
              "impossible token received in the start state - INT",
              "impossible token received in the start state - SLASH", "",
              "all parameters of the face are not specified", "all parameters of the face are not specified",
              "impossible token received in the start state - UNKNOWN",
              "impossible token received in the start state - COMMENT"],
             ["parser cannot be used in the error state", "parser cannot be used in the error state",
              "parser cannot be used in the error state", "parser cannot be used in the error state",
              "parser cannot be used in the error state", "parser cannot be used in the error state",
              "parser cannot be used in the error state", "parser cannot be used in the error state",
              "parser cannot be used in the error state"],
             ["invalid index, expected: INT, received: WORD", "", "invalid index, expected: INT, received: FLOAT",
              "invalid vertex number 1, expected: INT, received: SLASH",
              "impossible token received when reading the vertex number 1 - SPACE",
              "parameters vertex number 1, vertex number 2, vertex number 3 are not specified",
              "parameters vertex number 1, vertex number 2, vertex number 3 are not specified",
              "invalid vertex number 1, expected: INT, received: UNKNOWN",
              "impossible token received when reading the vertex number 1 - COMMENT"],
             ["impossible token received when reading the delimiter between index of the vertex number 1 and texture of the vertex number 1 - WORD",
              "impossible token received when reading the delimiter between index of the vertex number 1 and texture of the vertex number 1 - INT",
              "impossible token received when reading the delimiter between index of the vertex number 1 and texture of the vertex number 1 - FLOAT",
              "", "", "parameters vertex number 2, vertex number 3 are not specified",
              "parameters vertex number 2, vertex number 3 are not specified",
              "impossible token received when reading the delimiter between index of the vertex number 1 and texture of the vertex number 1 - UNKNOWN",
              "impossible token received when reading the delimiter between index of the vertex number 1 and texture of the vertex number 1 - COMMENT"],
             ["invalid texture, expected: INT, received: WORD", "", "invalid texture, expected: INT, received: FLOAT",
              "", "invalid texture of the vertex number 1, expected: INT, received: SPACE",
              "parameters texture of the vertex number 1, vertex number 2, vertex number 3 are not specified",
              "parameters texture of the vertex number 1, vertex number 2, vertex number 3 are not specified",
              "invalid texture of the vertex number 1, expected: INT, received: UNKNOWN",
              "impossible token received when reading the texture of the vertex number 1 - COMMENT"],
             ["impossible token received when reading the delimiter between texture of the vertex number 1 and normal of the vertex number 1 - WORD",
              "impossible token received when reading the delimiter between texture of the vertex number 1 and normal of the vertex number 1 - INT",
              "impossible token received when reading the delimiter between texture of the vertex number 1 and normal of the vertex number 1 - FLOAT",
              "", "", "parameters vertex number 2, vertex number 3 are not specified",
              "parameters vertex number 2, vertex number 3 are not specified",
              "impossible token received when reading the delimiter between texture of the vertex number 1 and normal of the vertex number 1 - UNKNOWN",
              "impossible token received when reading the delimiter between texture of the vertex number 1 and normal of the vertex number 1 - COMMENT"],
             ["invalid normal, expected: INT, received: WORD", "", "invalid normal, expected: INT, received: FLOAT",
              "invalid normal of the vertex number 1, expected: INT, received: SLASH",
              "invalid normal of the vertex number 1, expected: INT, received: SPACE",
              "parameters normal of the vertex number 1, vertex number 2, vertex number 3 are not specified",
              "parameters normal of the vertex number 1, vertex number 2, vertex number 3 are not specified",
              "invalid normal of the vertex number 1, expected: INT, received: UNKNOWN",
              "impossible token received when reading the normal of the vertex number 1 - COMMENT"],
             ["impossible token received when reading the delimiter between vertex number 1 and vertex number 2 - WORD",
              "impossible token received when reading the delimiter between vertex number 1 and vertex number 2 - INT",
              "impossible token received when reading the delimiter between vertex number 1 and vertex number 2 - FLOAT",
              "invalid delimiter between vertex number 1 and vertex number 2, expected: SPACE, received: SLASH", "",
              "parameters vertex number 2, vertex number 3 are not specified",
              "parameters vertex number 2, vertex number 3 are not specified",
              "impossible token received when reading the delimiter between vertex number 1 and vertex number 2 - UNKNOWN",
              "impossible token received when reading the delimiter between vertex number 1 and vertex number 2 - COMMENT"],
             ["invalid index, expected: INT, received: WORD", "", "invalid index, expected: INT, received: FLOAT",
              "invalid index of the vertex number 2, expected: INT, received: SLASH",
              "impossible token received when reading the index of the vertex number 2 - SPACE",
              "parameters index of the vertex number 2, texture of the vertex number 2, normal of the vertex number 2, vertex number 2, vertex number 3 are not specified",
              "parameters index of the vertex number 2, texture of the vertex number 2, normal of the vertex number 2, vertex number 2, vertex number 3 are not specified",
              "invalid index of the vertex number 2, expected: INT, received: UNKNOWN",
              "impossible token received when reading the index of the vertex number 2 - COMMENT"],
             ["impossible token received when reading the token after index of the vertex number 2 - WORD",
              "impossible token received when reading the token after index of the vertex number 2 - INT",
              "impossible token received when reading the token after index of the vertex number 2 - FLOAT", "",
              "the texture is not specified for vertex number 2, but is specified for the first vertex",
              "parameters texture of the vertex number 2, normal of the vertex number 2, vertex number 2, vertex number 3 are not specified",
              "parameters texture of the vertex number 2, normal of the vertex number 2, vertex number 2, vertex number 3 are not specified",
              "impossible token received when reading the token after index of the vertex number 2 - UNKNOWN",
              "impossible token received when reading the token after index of the vertex number 2 - COMMENT"],
             ["invalid texture, expected: INT, received: WORD", "", "invalid texture, expected: INT, received: FLOAT",
              "the texture is not specified for vertex number 2, but is specified for the first vertex",
              "invalid texture of the vertex number 2, expected: INT, received: SPACE",
              "parameters texture of the vertex number 2, normal of the vertex number 2, vertex number 2, vertex number 3 are not specified",
              "parameters texture of the vertex number 2, normal of the vertex number 2, vertex number 2, vertex number 3 are not specified",
              "invalid texture of the vertex number 2, expected: INT, received: UNKNOWN",
              "impossible token received when reading the texture of the vertex number 2 - COMMENT"],
             ["impossible token received when reading the token after texture of the vertex number 2 - WORD",
              "impossible token received when reading the token after texture of the vertex number 2 - INT",
              "impossible token received when reading the token after texture of the vertex number 2 - FLOAT", "",
              "the normal is not specified for vertex number 2, but is specified for the first vertex",
              "parameters normal of the vertex number 2, vertex number 2, vertex number 3 are not specified",
              "parameters normal of the vertex number 2, vertex number 2, vertex number 3 are not specified",
              "impossible token received when reading the token after texture of the vertex number 2 - UNKNOWN",
              "impossible token received when reading the token after texture of the vertex number 2 - COMMENT"],
             ["invalid normal, expected: INT, received: WORD", "", "invalid normal, expected: INT, received: FLOAT",
              "the normal is not specified for vertex number 2, but is specified for the first vertex",
              "invalid normal of the vertex number 2, expected: INT, received: SPACE",
              "parameters normal of the vertex number 2, vertex number 2, vertex number 3 are not specified",
              "parameters normal of the vertex number 2, vertex number 2, vertex number 3 are not specified",
              "invalid normal of the vertex number 2, expected: INT, received: UNKNOWN",
              "impossible token received when reading the normal of the vertex number 2 - COMMENT"],
             ["impossible token received when reading the delimiter between vertex number 2 and vertex number 3 - WORD",
              "impossible token received when reading the delimiter between vertex number 2 and vertex number 3 - INT",
              "impossible token received when reading the delimiter between vertex number 2 and vertex number 3 - FLOAT",
              "invalid delimiter between vertex number 2 and vertex number 3, expected: SPACE, received: SLASH", "",
              "parameter vertex number 3 is not specified", "parameter vertex number 3 is not specified",
              "impossible token received when reading the delimiter between vertex number 2 and vertex number 3 - UNKNOWN",
              "impossible token received when reading the delimiter between vertex number 2 and vertex number 3 - COMMENT"],
             ["invalid index, expected: INT, received: WORD", "", "invalid index, expected: INT, received: FLOAT",
              "invalid index of the vertex number 3, expected: INT, received: SLASH",
              "impossible token received when reading the index of the vertex number 3 - SPACE",
              "parameters index of the vertex number 3, texture of the vertex number 3, normal of the vertex number 3, vertex number 3 are not specified",
              "parameters index of the vertex number 3, texture of the vertex number 3, normal of the vertex number 3, vertex number 3 are not specified",
              "invalid index of the vertex number 3, expected: INT, received: UNKNOWN",
              "impossible token received when reading the index of the vertex number 3 - COMMENT"],
             ["impossible token received when reading the token after index of the vertex number 3 - WORD",
              "impossible token received when reading the token after index of the vertex number 3 - INT",
              "impossible token received when reading the token after index of the vertex number 3 - FLOAT", "",
              "the texture is not specified for vertex number 3, but is specified for the first vertex",
              "parameters texture of the vertex number 3, normal of the vertex number 3, vertex number 3 are not specified",
              "parameters texture of the vertex number 3, normal of the vertex number 3, vertex number 3 are not specified",
              "impossible token received when reading the token after index of the vertex number 3 - UNKNOWN",
              "impossible token received when reading the token after index of the vertex number 3 - COMMENT"],
             ["invalid texture, expected: INT, received: WORD", "", "invalid texture, expected: INT, received: FLOAT",
              "the texture is not specified for vertex number 3, but is specified for the first vertex",
              "invalid texture of the vertex number 3, expected: INT, received: SPACE",
              "parameters texture of the vertex number 3, normal of the vertex number 3, vertex number 3 are not specified",
              "parameters texture of the vertex number 3, normal of the vertex number 3, vertex number 3 are not specified",
              "invalid texture of the vertex number 3, expected: INT, received: UNKNOWN",
              "impossible token received when reading the texture of the vertex number 3 - COMMENT"],
             ["impossible token received when reading the token after texture of the vertex number 3 - WORD",
              "impossible token received when reading the token after texture of the vertex number 3 - INT",
              "impossible token received when reading the token after texture of the vertex number 3 - FLOAT", "",
              "the normal is not specified for vertex number 3, but is specified for the first vertex",
              "parameters normal of the vertex number 3, vertex number 3 are not specified",
              "parameters normal of the vertex number 3, vertex number 3 are not specified",
              "impossible token received when reading the token after texture of the vertex number 3 - UNKNOWN",
              "impossible token received when reading the token after texture of the vertex number 3 - COMMENT"],
             ["invalid normal, expected: INT, received: WORD", "", "invalid normal, expected: INT, received: FLOAT",
              "the normal is not specified for vertex number 3, but is specified for the first vertex",
              "invalid normal of the vertex number 3, expected: INT, received: SPACE",
              "parameters normal of the vertex number 3, vertex number 3 are not specified",
              "parameters normal of the vertex number 3, vertex number 3 are not specified",
              "invalid normal of the vertex number 3, expected: INT, received: UNKNOWN",
              "impossible token received when reading the normal of the vertex number 3 - COMMENT"],
             ["impossible token received when reading the token after vertex number 3 - WORD",
              "impossible token received when reading the token after vertex number 3 - INT",
              "impossible token received when reading the token after vertex number 3 - FLOAT",
              "invalid token after vertex number 3, expected: SPACE, received: SLASH", "", "", "",
              "impossible token received when reading the token after vertex number 3 - UNKNOWN",
              "impossible token received when reading the token after vertex number 3 - COMMENT"],
             ["invalid index, expected: INT, received: WORD", "", "invalid index, expected: INT, received: FLOAT",
              "invalid index of the additional vertex, expected: INT, received: SLASH",
              "impossible token received when reading the index of the additional vertex - SPACE",
              "parameters index of the additional vertex, texture of the additional vertex, normal of the additional vertex are not specified",
              "parameters index of the additional vertex, texture of the additional vertex, normal of the additional vertex are not specified",
              "invalid index of the additional vertex, expected: INT, received: UNKNOWN",
              "impossible token received when reading the index of the additional vertex - COMMENT"],
             ["impossible token received when reading the token after index of the additional vertex - WORD",
              "impossible token received when reading the token after index of the additional vertex - INT",
              "impossible token received when reading the token after index of the additional vertex - FLOAT", "",
              "the texture is not specified for additional vertex, but is specified for the first vertex",
              "parameters texture of the additional vertex, normal of the additional vertex are not specified",
              "parameters texture of the additional vertex, normal of the additional vertex are not specified",
              "impossible token received when reading the token after index of the additional vertex - UNKNOWN",
              "impossible token received when reading the token after index of the additional vertex - COMMENT"],
             ["invalid texture, expected: INT, received: WORD", "", "invalid texture, expected: INT, received: FLOAT",
              "the texture is not specified for additional vertex, but is specified for the first vertex",
              "invalid texture of the additional vertex, expected: INT, received: SPACE",
              "parameters texture of the additional vertex, normal of the additional vertex are not specified",
              "parameters texture of the additional vertex, normal of the additional vertex are not specified",
              "invalid texture of the additional vertex, expected: INT, received: UNKNOWN",
              "impossible token received when reading the texture of the additional vertex - COMMENT"],
             ["impossible token received when reading the token after texture of the additional vertex - WORD",
              "impossible token received when reading the token after texture of the additional vertex - INT",
              "impossible token received when reading the token after texture of the additional vertex - FLOAT", "",
              "the normal is not specified for additional vertex, but is specified for the first vertex",
              "parameter normal of the additional vertex is not specified",
              "parameter normal of the additional vertex is not specified",
              "impossible token received when reading the token after texture of the additional vertex - UNKNOWN",
              "impossible token received when reading the token after texture of the additional vertex - COMMENT"],
             ["invalid normal, expected: INT, received: WORD", "", "invalid normal, expected: INT, received: FLOAT",
              "the normal is not specified for additional vertex, but is specified for the first vertex",
              "invalid normal of the additional vertex, expected: INT, received: SPACE",
              "parameter normal of the additional vertex is not specified",
              "parameter normal of the additional vertex is not specified",
              "invalid normal of the additional vertex, expected: INT, received: UNKNOWN",
              "impossible token received when reading the normal of the additional vertex - COMMENT"],
             ["impossible token received when reading the token after additional vertex - WORD",
              "impossible token received when reading the token after additional vertex - INT",
              "impossible token received when reading the token after additional vertex - FLOAT",
              "invalid token after additional vertex, expected: SPACE, received: SLASH", "", "", "",
              "impossible token received when reading the token after additional vertex - UNKNOWN",
              "impossible token received when reading the token after additional vertex - COMMENT"],
             ["invalid index, expected: INT, received: WORD", "", "invalid index, expected: INT, received: FLOAT",
              "invalid index of the vertex number 2, expected: INT, received: SLASH",
              "impossible token received when reading the index of the vertex number 2 - SPACE",
              "parameters index of the vertex number 2, texture of the vertex number 2, vertex number 2, vertex number 3 are not specified",
              "parameters index of the vertex number 2, texture of the vertex number 2, vertex number 2, vertex number 3 are not specified",
              "invalid index of the vertex number 2, expected: INT, received: UNKNOWN",
              "impossible token received when reading the index of the vertex number 2 - COMMENT"],
             ["impossible token received when reading the token after index of the vertex number 2 - WORD",
              "impossible token received when reading the token after index of the vertex number 2 - INT",
              "impossible token received when reading the token after index of the vertex number 2 - FLOAT", "",
              "the texture is not specified for vertex number 2, but is specified for the first vertex",
              "parameters texture of the vertex number 2, vertex number 2, vertex number 3 are not specified",
              "parameters texture of the vertex number 2, vertex number 2, vertex number 3 are not specified",
              "impossible token received when reading the token after index of the vertex number 2 - UNKNOWN",
              "impossible token received when reading the token after index of the vertex number 2 - COMMENT"],
             ["invalid texture, expected: INT, received: WORD", "", "invalid texture, expected: INT, received: FLOAT",
              "the texture is not specified for vertex number 2, but is specified for the first vertex",
              "invalid texture of the vertex number 2, expected: INT, received: SPACE",
              "parameters texture of the vertex number 2, vertex number 2, vertex number 3 are not specified",
              "parameters texture of the vertex number 2, vertex number 2, vertex number 3 are not specified",
              "invalid texture of the vertex number 2, expected: INT, received: UNKNOWN",
              "impossible token received when reading the texture of the vertex number 2 - COMMENT"],
             ["impossible token received when reading the delimiter between vertex number 2 and vertex number 3 - WORD",
              "impossible token received when reading the delimiter between vertex number 2 and vertex number 3 - INT",
              "impossible token received when reading the delimiter between vertex number 2 and vertex number 3 - FLOAT",
              "invalid delimiter between vertex number 2 and vertex number 3, expected: SPACE, received: SLASH", "",
              "parameter vertex number 3 is not specified", "parameter vertex number 3 is not specified",
              "impossible token received when reading the delimiter between vertex number 2 and vertex number 3 - UNKNOWN",
              "impossible token received when reading the delimiter between vertex number 2 and vertex number 3 - COMMENT"],
             ["invalid index, expected: INT, received: WORD", "", "invalid index, expected: INT, received: FLOAT",
              "invalid index of the vertex number 3, expected: INT, received: SLASH",
              "impossible token received when reading the index of the vertex number 3 - SPACE",
              "parameters index of the vertex number 3, texture of the vertex number 3, vertex number 3 are not specified",
              "parameters index of the vertex number 3, texture of the vertex number 3, vertex number 3 are not specified",
              "invalid index of the vertex number 3, expected: INT, received: UNKNOWN",
              "impossible token received when reading the index of the vertex number 3 - COMMENT"],
             ["impossible token received when reading the token after index of the vertex number 3 - WORD",
              "impossible token received when reading the token after index of the vertex number 3 - INT",
              "impossible token received when reading the token after index of the vertex number 3 - FLOAT", "",
              "the texture is not specified for vertex number 3, but is specified for the first vertex",
              "parameters texture of the vertex number 3, vertex number 3 are not specified",
              "parameters texture of the vertex number 3, vertex number 3 are not specified",
              "impossible token received when reading the token after index of the vertex number 3 - UNKNOWN",
              "impossible token received when reading the token after index of the vertex number 3 - COMMENT"],
             ["invalid texture, expected: INT, received: WORD", "", "invalid texture, expected: INT, received: FLOAT",
              "the texture is not specified for vertex number 3, but is specified for the first vertex",
              "invalid texture of the vertex number 3, expected: INT, received: SPACE",
              "parameters texture of the vertex number 3, vertex number 3 are not specified",
              "parameters texture of the vertex number 3, vertex number 3 are not specified",
              "invalid texture of the vertex number 3, expected: INT, received: UNKNOWN",
              "impossible token received when reading the texture of the vertex number 3 - COMMENT"],
             ["impossible token received when reading the token after vertex number 3 - WORD",
              "impossible token received when reading the token after vertex number 3 - INT",
              "impossible token received when reading the token after vertex number 3 - FLOAT",
              "invalid token after vertex number 3, expected: SPACE, received: SLASH", "", "", "",
              "impossible token received when reading the token after vertex number 3 - UNKNOWN",
              "impossible token received when reading the token after vertex number 3 - COMMENT"],
             ["invalid index, expected: INT, received: WORD", "", "invalid index, expected: INT, received: FLOAT",
              "invalid index of the additional vertex, expected: INT, received: SLASH",
              "impossible token received when reading the index of the additional vertex - SPACE",
              "parameters index of the additional vertex, texture of the additional vertex are not specified",
              "parameters index of the additional vertex, texture of the additional vertex are not specified",
              "invalid index of the additional vertex, expected: INT, received: UNKNOWN",
              "impossible token received when reading the index of the additional vertex - COMMENT"],
             ["impossible token received when reading the token after index of the additional vertex - WORD",
              "impossible token received when reading the token after index of the additional vertex - INT",
              "impossible token received when reading the token after index of the additional vertex - FLOAT", "",
              "the texture is not specified for additional vertex, but is specified for the first vertex",
              "parameter texture of the additional vertex is not specified",
              "parameter texture of the additional vertex is not specified",
              "impossible token received when reading the token after index of the additional vertex - UNKNOWN",
              "impossible token received when reading the token after index of the additional vertex - COMMENT"],
             ["invalid texture, expected: INT, received: WORD", "", "invalid texture, expected: INT, received: FLOAT",
              "the texture is not specified for additional vertex, but is specified for the first vertex",
              "invalid texture of the additional vertex, expected: INT, received: SPACE",
              "parameter texture of the additional vertex is not specified",
              "parameter texture of the additional vertex is not specified",
              "invalid texture of the additional vertex, expected: INT, received: UNKNOWN",
              "impossible token received when reading the texture of the additional vertex - COMMENT"],
             ["impossible token received when reading the token after additional vertex - WORD",
              "impossible token received when reading the token after additional vertex - INT",
              "impossible token received when reading the token after additional vertex - FLOAT",
              "invalid token after additional vertex, expected: SPACE, received: SLASH", "", "", "",
              "impossible token received when reading the token after additional vertex - UNKNOWN",
              "impossible token received when reading the token after additional vertex - COMMENT"],
             ["invalid normal, expected: INT, received: WORD", "", "invalid normal, expected: INT, received: FLOAT",
              "invalid normal of the additional vertex, expected: INT, received: SLASH",
              "invalid normal of the additional vertex, expected: INT, received: SPACE",
              "parameters normal of the additional vertex, vertex number 2, vertex number 3 are not specified",
              "parameters normal of the additional vertex, vertex number 2, vertex number 3 are not specified",
              "invalid normal of the additional vertex, expected: INT, received: UNKNOWN",
              "impossible token received when reading the normal of the additional vertex - COMMENT"],
             ["impossible token received when reading the delimiter between vertex number 1 and vertex number 2 - WORD",
              "impossible token received when reading the delimiter between vertex number 1 and vertex number 2 - INT",
              "impossible token received when reading the delimiter between vertex number 1 and vertex number 2 - FLOAT",
              "invalid delimiter between vertex number 1 and vertex number 2, expected: SPACE, received: SLASH", "",
              "parameters vertex number 2, vertex number 3 are not specified",
              "parameters vertex number 2, vertex number 3 are not specified",
              "impossible token received when reading the delimiter between vertex number 1 and vertex number 2 - UNKNOWN",
              "impossible token received when reading the delimiter between vertex number 1 and vertex number 2 - COMMENT"],
             ["invalid index, expected: INT, received: WORD", "", "invalid index, expected: INT, received: FLOAT",
              "invalid index of the vertex number 2, expected: INT, received: SLASH",
              "impossible token received when reading the index of the vertex number 2 - SPACE",
              "parameters index of the vertex number 2, texture of the vertex number 2, normal of the vertex number 2, vertex number 2, vertex number 3 are not specified",
              "parameters index of the vertex number 2, texture of the vertex number 2, normal of the vertex number 2, vertex number 2, vertex number 3 are not specified",
              "invalid index of the vertex number 2, expected: INT, received: UNKNOWN",
              "impossible token received when reading the index of the vertex number 2 - COMMENT"],
             ["impossible token received when reading the token after index of the vertex number 2 - WORD",
              "impossible token received when reading the token after index of the vertex number 2 - INT",
              "impossible token received when reading the token after index of the vertex number 2 - FLOAT", "",
              "the texture is not specified for vertex number 2, but is specified for the first vertex",
              "parameters texture of the vertex number 2, normal of the vertex number 2, vertex number 2, vertex number 3 are not specified",
              "parameters texture of the vertex number 2, normal of the vertex number 2, vertex number 2, vertex number 3 are not specified",
              "impossible token received when reading the token after index of the vertex number 2 - UNKNOWN",
              "impossible token received when reading the token after index of the vertex number 2 - COMMENT"],
             ["invalid format for description of the vertex number 2, it must be the same as the first vertex, expected: SLASH, received: WORD",
              "the texture is specified for vertex number 2, but is not specified for the first vertex",
              "invalid format for description of the vertex number 2, it must be the same as the first vertex, expected: SLASH, received: FLOAT",
              "", "the normal is not specified for vertex number 2, but is specified for the first vertex",
              "parameters normal of the vertex number 2, vertex number 2, vertex number 3 are not specified",
              "parameters normal of the vertex number 2, vertex number 2, vertex number 3 are not specified",
              "invalid format for description of the vertex number 2, it must be the same as the first vertex, expected: SLASH, received: UNKNOWN",
              "impossible token received when reading the texture of the vertex number 2 - COMMENT"],
             ["invalid normal, expected: INT, received: WORD", "", "invalid normal, expected: INT, received: FLOAT",
              "the normal is not specified for vertex number 2, but is specified for the first vertex",
              "invalid normal of the vertex number 2, expected: INT, received: SPACE",
              "parameters normal of the vertex number 2, vertex number 2, vertex number 3 are not specified",
              "parameters normal of the vertex number 2, vertex number 2, vertex number 3 are not specified",
              "invalid normal of the vertex number 2, expected: INT, received: UNKNOWN",
              "impossible token received when reading the normal of the vertex number 2 - COMMENT"],
             ["impossible token received when reading the delimiter between vertex number 2 and vertex number 3 - WORD",
              "impossible token received when reading the delimiter between vertex number 2 and vertex number 3 - INT",
              "impossible token received when reading the delimiter between vertex number 2 and vertex number 3 - FLOAT",
              "invalid delimiter between vertex number 2 and vertex number 3, expected: SPACE, received: SLASH", "",
              "parameter vertex number 3 is not specified", "parameter vertex number 3 is not specified",
              "impossible token received when reading the delimiter between vertex number 2 and vertex number 3 - UNKNOWN",
              "impossible token received when reading the delimiter between vertex number 2 and vertex number 3 - COMMENT"],
             ["invalid index, expected: INT, received: WORD", "", "invalid index, expected: INT, received: FLOAT",
              "invalid index of the vertex number 3, expected: INT, received: SLASH",
              "impossible token received when reading the index of the vertex number 3 - SPACE",
              "parameters index of the vertex number 3, texture of the vertex number 3, normal of the vertex number 3, vertex number 3 are not specified",
              "parameters index of the vertex number 3, texture of the vertex number 3, normal of the vertex number 3, vertex number 3 are not specified",
              "invalid index of the vertex number 3, expected: INT, received: UNKNOWN",
              "impossible token received when reading the index of the vertex number 3 - COMMENT"],
             ["impossible token received when reading the token after index of the vertex number 3 - WORD",
              "impossible token received when reading the token after index of the vertex number 3 - INT",
              "impossible token received when reading the token after index of the vertex number 3 - FLOAT", "",
              "the texture is not specified for vertex number 3, but is specified for the first vertex",
              "parameters texture of the vertex number 3, normal of the vertex number 3, vertex number 3 are not specified",
              "parameters texture of the vertex number 3, normal of the vertex number 3, vertex number 3 are not specified",
              "impossible token received when reading the token after index of the vertex number 3 - UNKNOWN",
              "impossible token received when reading the token after index of the vertex number 3 - COMMENT"],
             ["invalid format for description of the vertex number 3, it must be the same as the first vertex, expected: SLASH, received: WORD",
              "the texture is specified for vertex number 3, but is not specified for the first vertex",
              "invalid format for description of the vertex number 3, it must be the same as the first vertex, expected: SLASH, received: FLOAT",
              "", "the normal is not specified for vertex number 3, but is specified for the first vertex",
              "parameters normal of the vertex number 3, vertex number 3 are not specified",
              "parameters normal of the vertex number 3, vertex number 3 are not specified",
              "invalid format for description of the vertex number 3, it must be the same as the first vertex, expected: SLASH, received: UNKNOWN",
              "impossible token received when reading the texture of the vertex number 3 - COMMENT"],
             ["invalid normal, expected: INT, received: WORD", "", "invalid normal, expected: INT, received: FLOAT",
              "the normal is not specified for vertex number 3, but is specified for the first vertex",
              "invalid normal of the vertex number 3, expected: INT, received: SPACE",
              "parameters normal of the vertex number 3, vertex number 3 are not specified",
              "parameters normal of the vertex number 3, vertex number 3 are not specified",
              "invalid normal of the vertex number 3, expected: INT, received: UNKNOWN",
              "impossible token received when reading the normal of the vertex number 3 - COMMENT"],
             ["impossible token received when reading the token after vertex number 3 - WORD",
              "impossible token received when reading the token after vertex number 3 - INT",
              "impossible token received when reading the token after vertex number 3 - FLOAT",
              "invalid token after vertex number 3, expected: SPACE, received: SLASH", "", "", "",
              "impossible token received when reading the token after vertex number 3 - UNKNOWN",
              "impossible token received when reading the token after vertex number 3 - COMMENT"],
             ["invalid index, expected: INT, received: WORD", "", "invalid index, expected: INT, received: FLOAT",
              "invalid index of the additional vertex, expected: INT, received: SLASH",
              "impossible token received when reading the index of the additional vertex - SPACE",
              "parameters index of the additional vertex, texture of the additional vertex, normal of the additional vertex are not specified",
              "parameters index of the additional vertex, texture of the additional vertex, normal of the additional vertex are not specified",
              "invalid index of the additional vertex, expected: INT, received: UNKNOWN",
              "impossible token received when reading the index of the additional vertex - COMMENT"],
             ["impossible token received when reading the token after index of the additional vertex - WORD",
              "impossible token received when reading the token after index of the additional vertex - INT",
              "impossible token received when reading the token after index of the additional vertex - FLOAT", "",
              "the texture is not specified for additional vertex, but is specified for the first vertex",
              "parameters texture of the additional vertex, normal of the additional vertex are not specified",
              "parameters texture of the additional vertex, normal of the additional vertex are not specified",
              "impossible token received when reading the token after index of the additional vertex - UNKNOWN",
              "impossible token received when reading the token after index of the additional vertex - COMMENT"],
             ["invalid format for description of the additional vertex, it must be the same as the first vertex, expected: SLASH, received: WORD",
              "the texture is specified for additional vertex, but is not specified for the first vertex",
              "invalid format for description of the additional vertex, it must be the same as the first vertex, expected: SLASH, received: FLOAT",
              "", "the normal is not specified for additional vertex, but is specified for the first vertex",
              "parameter normal of the additional vertex is not specified",
              "parameter normal of the additional vertex is not specified",
              "invalid format for description of the additional vertex, it must be the same as the first vertex, expected: SLASH, received: UNKNOWN",
              "impossible token received when reading the texture of the additional vertex - COMMENT"],
             ["invalid normal, expected: INT, received: WORD", "", "invalid normal, expected: INT, received: FLOAT",
              "the normal is not specified for additional vertex, but is specified for the first vertex",
              "invalid normal of the additional vertex, expected: INT, received: SPACE",
              "parameter normal of the additional vertex is not specified",
              "parameter normal of the additional vertex is not specified",
              "invalid normal of the additional vertex, expected: INT, received: UNKNOWN",
              "impossible token received when reading the normal of the additional vertex - COMMENT"],
             ["impossible token received when reading the token after additional vertex - WORD",
              "impossible token received when reading the token after additional vertex - INT",
              "impossible token received when reading the token after additional vertex - FLOAT",
              "invalid token after additional vertex, expected: SPACE, received: SLASH", "", "", "",
              "impossible token received when reading the token after additional vertex - UNKNOWN",
              "impossible token received when reading the token after additional vertex - COMMENT"],
             ["invalid index, expected: INT, received: WORD", "", "invalid index, expected: INT, received: FLOAT",
              "invalid index of the vertex number 2, expected: INT, received: SLASH",
              "impossible token received when reading the index of the vertex number 2 - SPACE",
              "parameters index of the vertex number 2, vertex number 2, vertex number 3 are not specified",
              "parameters index of the vertex number 2, vertex number 2, vertex number 3 are not specified",
              "invalid index of the vertex number 2, expected: INT, received: UNKNOWN",
              "impossible token received when reading the index of the vertex number 2 - COMMENT"],
             ["impossible token received when reading the delimiter between vertex number 2 and vertex number 3 - WORD",
              "impossible token received when reading the delimiter between vertex number 2 and vertex number 3 - INT",
              "impossible token received when reading the delimiter between vertex number 2 and vertex number 3 - FLOAT",
              "invalid delimiter between vertex number 2 and vertex number 3, expected: SPACE, received: SLASH", "",
              "parameter vertex number 3 is not specified", "parameter vertex number 3 is not specified",
              "impossible token received when reading the delimiter between vertex number 2 and vertex number 3 - UNKNOWN",
              "impossible token received when reading the delimiter between vertex number 2 and vertex number 3 - COMMENT"],
             ["invalid index, expected: INT, received: WORD", "", "invalid index, expected: INT, received: FLOAT",
              "invalid index of the vertex number 3, expected: INT, received: SLASH",
              "impossible token received when reading the index of the vertex number 3 - SPACE",
              "parameters index of the vertex number 3, vertex number 3 are not specified",
              "parameters index of the vertex number 3, vertex number 3 are not specified",
              "invalid index of the vertex number 3, expected: INT, received: UNKNOWN",
              "impossible token received when reading the index of the vertex number 3 - COMMENT"],
             ["impossible token received when reading the token after vertex number 3 - WORD",
              "impossible token received when reading the token after vertex number 3 - INT",
              "impossible token received when reading the token after vertex number 3 - FLOAT",
              "invalid token after vertex number 3, expected: SPACE, received: SLASH", "", "", "",
              "impossible token received when reading the token after vertex number 3 - UNKNOWN",
              "impossible token received when reading the token after vertex number 3 - COMMENT"],
             ["invalid index, expected: INT, received: WORD", "", "invalid index, expected: INT, received: FLOAT",
              "invalid index of the additional vertex, expected: INT, received: SLASH",
              "impossible token received when reading the index of the additional vertex - SPACE",
              "parameter index of the additional vertex is not specified",
              "parameter index of the additional vertex is not specified",
              "invalid index of the additional vertex, expected: INT, received: UNKNOWN",
              "impossible token received when reading the index of the additional vertex - COMMENT"],
             ["impossible token received when reading the token after additional vertex - WORD",
              "impossible token received when reading the token after additional vertex - INT",
              "impossible token received when reading the token after additional vertex - FLOAT",
              "invalid token after additional vertex, expected: SPACE, received: SLASH", "", "", "",
              "impossible token received when reading the token after additional vertex - UNKNOWN",
              "impossible token received when reading the token after additional vertex - COMMENT"]],
  actions := [MAct.reject,
              MAct.reject,
              MAct.clear,
              MAct.setter (FAct.idx),
              MAct.noop,
              MAct.setter (FAct.tex),
              MAct.noop,
              MAct.setter (FAct.nrm),
              MAct.noop,
              MAct.setter (FAct.idx),
              MAct.noop,
              MAct.setter (FAct.tex),
              MAct.noop,
              MAct.setter (FAct.nrm),
              MAct.noop,
              MAct.setter (FAct.idx),
              MAct.noop,
              MAct.setter (FAct.tex),
              MAct.noop,
              MAct.setter (FAct.nrm),
              MAct.noop,
              MAct.setter (FAct.idx),
              MAct.noop,
              MAct.setter (FAct.tex),
              MAct.noop,
              MAct.setter (FAct.nrm),
              MAct.noop,
              MAct.setter (FAct.idx),
              MAct.noop,
              MAct.setter (FAct.tex),
              MAct.noop,
              MAct.setter (FAct.idx),
              MAct.noop,
              MAct.setter (FAct.tex),
              MAct.noop,
              MAct.setter (FAct.idx),
              MAct.noop,
              MAct.setter (FAct.tex),
              MAct.noop,
              MAct.setter (FAct.nrm),
              MAct.noop,
              MAct.setter (FAct.idx),
              MAct.noop,
              MAct.noop,
              MAct.setter (FAct.nrm),
              MAct.noop,
              MAct.setter (FAct.idx),
              MAct.noop,
              MAct.noop,
              MAct.setter (FAct.nrm),
              MAct.noop,
              MAct.setter (FAct.idx),
              MAct.noop,
              MAct.noop,
              MAct.setter (FAct.nrm),
              MAct.noop,
              MAct.setter (FAct.idx),
              MAct.noop,
              MAct.setter (FAct.idx),
              MAct.noop,
              MAct.setter (FAct.idx)] }

/-! ### Statement-level definitions for the claims -/

/-! ### C9: shape of the compiled tables -/

/-- The table invariant of a compiled machine: the transition and error
tables are total over (state, token kind) — one row of nine entries per
state, every target a state of the machine — and a transition enters the
reserved `err` state (1) exactly when a non-empty error message is stored
for that (state, token kind) pair. -/
def machineOk (m : Machine α) : Bool :=
  (m.matrix.length == m.errors.length) &&
  (List.range m.matrix.length).all fun i =>
    ((m.matrix.getD i []).length == 9) && ((m.errors.getD i []).length == 9) &&
    (List.range 9).all fun j =>
      decide ((m.matrix.getD i []).getD j 0 < m.matrix.length) &&
      (((m.matrix.getD i []).getD j 0 == 1) == (!((m.errors.getD i []).getD j "" == "")))

/-- Concatenation of the lexemes of a token list. -/
def concatLex (ts : List (Tok × List Nat)) : List Nat := (ts.map (fun p => p.2)).flatten

/-- The tokens of successive `Scanner.Next` calls with comment skipping
disabled, up to the first `EOF`, fuelled. -/
def tokListF : Nat → List Nat → List (Tok × List Nat)
  | 0, _ => []
  | fuel + 1, input =>
    if input = [] then []
    else
      match scanNextRaw input with
      | (t, lex, rest, _) => (t, lex) :: tokListF fuel rest

/-- The tokens of successive `Scanner.Next` calls with comment skipping
disabled, up to the first `EOF` (the fuel always suffices: every token
before `EOF` consumes at least one byte). -/
def tokensNoSkip (input : List Nat) : List (Tok × List Nat) :=
  tokListF (input.length + 1) input

/-- The line `l` is malformed for the dispatcher: one dispatch step on `l`
followed by anything emits the error diagnostic `msg`, skips exactly the
line, and leaves the scanner right after its newline. -/
def lineSkipsErr (l : List Nat) (msg : String) : Prop :=
  ∀ rest sw, parserStep ⟨l ++ rest, sw⟩ = (.skip ⟨true, msg⟩, ⟨rest, true⟩)

/-- The line `l` is a valid `v` line for the dispatcher: one dispatch step
on `l` followed by anything produces the vertex record `v` and leaves the
scanner right after the line's newline. -/
def lineGivesVertex (l : List Nat) (v : VertexRec) : Prop :=
  ∀ rest sw, parserStep ⟨l ++ rest, sw⟩ = (.produced .Vertex (.vertex v), ⟨rest, true⟩)

/-- A concrete alternating file for the skip-and-continue property: two
malformed lines, each followed by a valid `v` line. -/
def wQuads : List ((List Nat × String) × (List Nat × VertexRec)) :=
  [((strBytes "x\n", "error in the name of the element type"),
    (strBytes "v 1 2 3\n", ⟨1, 2, 3, 0⟩)),
   ((strBytes "y 1\n", "error in the name of the element type"),
    (strBytes "v 1 2 3\n", ⟨1, 2, 3, 0⟩))]

/-! ### Theorems -/

set_option maxRecDepth 40000 in
set_option maxHeartbeats 1000000 in
/-- The builder assembles exactly the golden `Vertex` table. -/
theorem vertexMachine_eq : vertexMachine = vertexMachineLit := by decide

set_option maxRecDepth 40000 in
set_option maxHeartbeats 4000000 in
/-- The builder assembles exactly the golden `Face` table. -/
theorem faceMachine_eq : faceMachine = faceMachineLit := by decide

/-- One dispatch step, evaluated against the golden tables. -/
theorem parserStep_lit (s : Scan) :
    parserStep s = parserStepM vertexMachineLit faceMachineLit s := by
  rw [parserStep, vertexMachine_eq, faceMachine_eq]

/-- `Parser.Next`, evaluated against the golden tables. -/
theorem parserNext_lit (s : Scan) :
    parserNext s = parserNextM vertexMachineLit faceMachineLit s := by
  rw [parserNext, vertexMachine_eq, faceMachine_eq]

/-- The whole-file run, evaluated against the golden tables. -/
theorem parserAll_lit (s : Scan) :
    parserAll s = parserAllM vertexMachineLit faceMachineLit s := by
  rw [parserAll, vertexMachine_eq, faceMachine_eq]
/-! ### Claims about concrete parses -/

set_option maxRecDepth 40000 in
set_option maxHeartbeats 1000000 in
/-- **C1.**  For the single-line input `"v 1.0 2.0 3.0\n"`, successive calls
to `Parser.Next` yield exactly one successful outcome `(Vertex, record)`
with record `{X:1.0, Y:2.0, Z:3.0, W:0.0}` before `EndOfFile` (the second
call returns the `EndOfFile` value, `none` here, and leaves the state
unchanged, so every later call does too); for `"v 1.0 2.0 3.0 0.5\n"` the
single record is `{X:1.0, Y:2.0, Z:3.0, W:0.5}`. -/
theorem claim_C1 :
    (parserNext ⟨strBytes "v 1.0 2.0 3.0\n", false⟩ =
       ([], some (.Vertex, .vertex ⟨1, 2, 3, 0⟩), ⟨[], true⟩) ∧
     parserNext ⟨[], true⟩ = ([], none, ⟨[], true⟩)) ∧
    (parserNext ⟨strBytes "v 1.0 2.0 3.0 0.5\n", false⟩ =
       ([], some (.Vertex, .vertex ⟨1, 2, 3, mkRat 1 2⟩), ⟨[], true⟩) ∧
     parserNext ⟨[], true⟩ = ([], none, ⟨[], true⟩)) := by
  simp only [parserNext_lit, parserAll_lit]
  decide

set_option maxRecDepth 40000 in
set_option maxHeartbeats 1000000 in
/-- **C2, counterexample.**  Parsing `"f 1/2/3 4/5/6 7\n"` does yield an
error and no record, but the diagnostic is the missing-parameters message
`"parameters texture of the vertex number 3, normal of the vertex number 3,
vertex number 3 are not specified"`, not a format-consistency message: every
format-consistency message of the builder compares against the first
repetition (it contains the run `"the first"`), and this message does not. -/
theorem claim_C2_counterexample :
    parserAll ⟨strBytes "f 1/2/3 4/5/6 7\n", false⟩ =
      ([],
       [⟨true, "parameters texture of the vertex number 3, normal of the vertex number 3, vertex number 3 are not specified"⟩],
       ⟨[], true⟩) ∧
    strHasRun "the first"
      "parameters texture of the vertex number 3, normal of the vertex number 3, vertex number 3 are not specified" = false := by
  simp only [parserNext_lit, parserAll_lit]
  decide

set_option maxRecDepth 40000 in
set_option maxHeartbeats 1000000 in
/-- **C2, amended.**  Parsing `"f 1/2/3 4/5/6 7\n"` yields an `Error`
outcome and no `Face` record for the line, but the error is the
missing-parameters message naming the third repetition's absent `texture`
and `normal` subfields (and the unfinished third vertex), not a
format-consistency message comparing against the first repetition — the
format-consistency messages sit on the `Slash`/`Space` entries of the same
rows and are reached only when the line continues after the divergence.
Parsing `"f 1 2 3\n"`, in which no optional subfield is ever present, yields
a successful `Face` record with vertices `[{1,0,0},{2,0,0},{3,0,0}]`. -/
theorem claim_C2 :
    parserAll ⟨strBytes "f 1/2/3 4/5/6 7\n", false⟩ =
      ([],
       [⟨true, "parameters texture of the vertex number 3, normal of the vertex number 3, vertex number 3 are not specified"⟩],
       ⟨[], true⟩) ∧
    strHasRun "texture of the vertex number 3"
      "parameters texture of the vertex number 3, normal of the vertex number 3, vertex number 3 are not specified" = true ∧
    strHasRun "normal of the vertex number 3"
      "parameters texture of the vertex number 3, normal of the vertex number 3, vertex number 3 are not specified" = true ∧
    parserAll ⟨strBytes "f 1 2 3\n", false⟩ =
      ([(.Face, .face ⟨[⟨1, 0, 0⟩, ⟨2, 0, 0⟩, ⟨3, 0, 0⟩]⟩)], [], ⟨[], true⟩) := by
  simp only [parserNext_lit, parserAll_lit]
  decide

set_option maxRecDepth 40000 in
set_option maxHeartbeats 1000000 in
/-- **C3.**  Parsing `"f 1 2\n"` with the compiled `Face` machine (repeated
composite, `minCount` 3) yields an `Error` outcome whose message is the
"parameters not specified" message naming the missing third vertex slot
(`"parameter vertex number 3 is not specified"`), and no `Face` record is
produced for the line. -/
theorem claim_C3 :
    parserAll ⟨strBytes "f 1 2\n", false⟩ =
      ([], [⟨true, "parameter vertex number 3 is not specified"⟩], ⟨[], true⟩) ∧
    strHasRun "vertex number 3" "parameter vertex number 3 is not specified" = true := by
  simp only [parserNext_lit, parserAll_lit]
  decide

set_option maxRecDepth 40000 in
set_option maxHeartbeats 1000000 in
/-- **C7, counterexample.**  A line consisting only of the element keyword
with no trailing whitespace (`"v\n"`) is an error, but its message is
`"all parameters of the vertex are not specified"`, which does not name the
required fields (it does not contain `"X coordinate"`, the name of the first
required field of the `Vertex` schema). -/
theorem claim_C7_counterexample :
    parserAll ⟨strBytes "v\n", false⟩ =
      ([], [⟨true, "all parameters of the vertex are not specified"⟩], ⟨[], true⟩) ∧
    strHasRun "X coordinate" "all parameters of the vertex are not specified" = false := by
  simp only [parserNext_lit, parserAll_lit]
  decide

set_option maxRecDepth 40000 in
set_option maxHeartbeats 1000000 in
/-- **C7, amended.**  For both registered schemas, a line consisting only of
the element keyword followed by end-of-line or end-of-file never silently
succeeds — it is always an `Error` outcome.  When the keyword is followed by
whitespace, the message names every required field of the schema; when the
end of line or file follows the keyword directly, the message is the
schema-wide `"all parameters of the <element> are not specified"`, which
names the element but not the individual fields. -/
theorem claim_C7 :
    parserAll ⟨strBytes "v \n", false⟩ =
      ([], [⟨true, "parameters X coordinate, Y coordinate, Z coordinate are not specified"⟩], ⟨[], true⟩) ∧
    parserAll ⟨strBytes "v ", false⟩ =
      ([], [⟨true, "parameters X coordinate, Y coordinate, Z coordinate are not specified"⟩], ⟨[], false⟩) ∧
    parserAll ⟨strBytes "f \n", false⟩ =
      ([], [⟨true, "parameters vertex number 1, vertex number 2, vertex number 3 are not specified"⟩], ⟨[], true⟩) ∧
    parserAll ⟨strBytes "f ", false⟩ =
      ([], [⟨true, "parameters vertex number 1, vertex number 2, vertex number 3 are not specified"⟩], ⟨[], false⟩) ∧
    parserAll ⟨strBytes "v\n", false⟩ =
      ([], [⟨true, "all parameters of the vertex are not specified"⟩], ⟨[], true⟩) ∧
    parserAll ⟨strBytes "v", false⟩ =
      ([], [⟨true, "all parameters of the vertex are not specified"⟩], ⟨[], false⟩) ∧
    parserAll ⟨strBytes "f\n", false⟩ =
      ([], [⟨true, "all parameters of the face are not specified"⟩], ⟨[], true⟩) ∧
    parserAll ⟨strBytes "f", false⟩ =
      ([], [⟨true, "all parameters of the face are not specified"⟩], ⟨[], false⟩) := by
  simp only [parserAll_lit]
  exact ⟨by decide, by decide, by decide, by decide, by decide, by decide, by decide,
    by decide⟩

set_option maxRecDepth 40000 in
set_option maxHeartbeats 1000000 in
/-- **C9.**  The finite-state machines produced by `buildParser` in the
program — the registry compiles exactly the `Vertex` and `Face` machines —
have transition and error tables total over (state, token kind), and a
transition leads to the `err` state exactly when a non-empty precomputed
message is stored for that pair. -/
theorem claim_C9 : machineOk vertexMachine = true ∧ machineOk faceMachine = true := by
  rw [vertexMachine_eq, faceMachine_eq]
  decide

theorem nextLoop_concat (input : List Nat) :
    ∀ state acc, (nextLoop state acc input).2.1 ++ (nextLoop state acc input).2.2.1 =
      acc.reverse ++ input := by
  induction input with
  | nil => intro state acc; simp [nextLoop]
  | cons b rest ih =>
    intro state acc
    simp only [nextLoop]
    by_cases h : scanTrans (symT b) state = 0
    · simp [h]
    · simpa [h] using ih (scanTrans (symT b) state) (b :: acc)

theorem nextLoop_ne_eof (input : List Nat) :
    ∀ state acc, (nextLoop state acc input).1 ≠ Tok.EOF := by
  induction input with
  | nil =>
    intro state acc
    simp only [nextLoop]
    unfold tokenTypeMap
    rcases state with _|_|_|_|_|_|_|_|_|_|_|n <;> simp [List.getD]
  | cons b rest ih =>
    intro state acc
    simp only [nextLoop]
    by_cases h : scanTrans (symT b) state = 0
    · simp only [h, if_pos rfl]
      unfold tokenTypeMap
      rcases state with _|_|_|_|_|_|_|_|_|_|_|n <;> simp [List.getD]
    · simpa [h] using ih (scanTrans (symT b) state) (b :: acc)

theorem nextLoop_acc_ne (input : List Nat) :
    ∀ state acc, acc ≠ [] → (nextLoop state acc input).2.1 ≠ [] := by
  induction input with
  | nil => intro state acc h; simpa [nextLoop] using h
  | cons b rest ih =>
    intro state acc h
    simp only [nextLoop]
    by_cases hs : scanTrans (symT b) state = 0
    · simpa [hs] using h
    · simpa [hs] using ih (scanTrans (symT b) state) (b :: acc) (by simp)

theorem scanTrans_start_ne (b : Nat) : scanTrans (symT b) 0 ≠ 0 := by
  unfold symT
  split_ifs <;> decide

theorem scanNextRaw_concat (input : List Nat) :
    (scanNextRaw input).2.1 ++ (scanNextRaw input).2.2.1 = input := by
  cases input with
  | nil => rfl
  | cons b rest => simpa using nextLoop_concat (b :: rest) 0 []

theorem scanNextRaw_ne_eof (b : Nat) (rest : List Nat) :
    (scanNextRaw (b :: rest)).1 ≠ Tok.EOF := by
  simpa [scanNextRaw] using nextLoop_ne_eof (b :: rest) 0 []

theorem scanNextRaw_lex_ne (b : Nat) (rest : List Nat) :
    (scanNextRaw (b :: rest)).2.1 ≠ [] := by
  show (nextLoop 0 [] (b :: rest)).2.1 ≠ []
  simp only [nextLoop]
  have h := scanTrans_start_ne b
  simpa [h] using nextLoop_acc_ne rest (scanTrans (symT b) 0) [b] (by simp)

theorem scanNextRaw_rest_lt (b : Nat) (rest : List Nat) :
    (scanNextRaw (b :: rest)).2.2.1.length < (b :: rest).length := by
  have hc := scanNextRaw_concat (b :: rest)
  have hl := scanNextRaw_lex_ne b rest
  have : (scanNextRaw (b :: rest)).2.1.length + (scanNextRaw (b :: rest)).2.2.1.length =
      (b :: rest).length := by
    rw [← List.length_append, hc]
  have hpos : 0 < (scanNextRaw (b :: rest)).2.1.length := List.length_pos.mpr hl
  omega

theorem scanNextF_rest_le (skip : Bool) (fuel : Nat) :
    ∀ input, (scanNextF skip fuel input).2.2.length ≤ input.length := by
  induction fuel with
  | zero => intro input; simp [scanNextF]
  | succ fuel ih =>
    intro input
    cases input with
    | nil => simp [scanNextF, scanNextRaw]
    | cons b rest =>
      rcases hsr : scanNextRaw (b :: rest) with ⟨t, lex, rst, e⟩
      have hlt : rst.length < (b :: rest).length := by
        have h := scanNextRaw_rest_lt b rest
        rw [hsr] at h
        exact h
      simp only [scanNextF, hsr]
      split
      · exact le_trans (ih rst) (le_of_lt hlt)
      · exact le_of_lt hlt

theorem scanNextF_rest_lt (skip : Bool) (fuel : Nat) :
    ∀ input, (scanNextF skip fuel input).1 ≠ Tok.EOF →
      (scanNextF skip fuel input).2.2.length < input.length := by
  induction fuel with
  | zero => intro input h; simp [scanNextF] at h
  | succ fuel ih =>
    intro input h
    cases input with
    | nil => simp [scanNextF, scanNextRaw] at h
    | cons b rest =>
      rcases hsr : scanNextRaw (b :: rest) with ⟨t, lex, rst, e⟩
      have hlt : rst.length < (b :: rest).length := by
        have h2 := scanNextRaw_rest_lt b rest
        rw [hsr] at h2
        exact h2
      simp only [scanNextF, hsr] at h ⊢
      split
      · next hc =>
        rw [if_pos hc] at h
        exact lt_trans (ih rst h) hlt
      · exact hlt

theorem scanNextF_empty_iff (skip : Bool) (fuel : Nat) :
    ∀ input, ((scanNextF skip fuel input).2.1 = [] ↔ (scanNextF skip fuel input).1 = Tok.EOF) := by
  induction fuel with
  | zero => intro input; simp [scanNextF]
  | succ fuel ih =>
    intro input
    cases input with
    | nil => simp [scanNextF, scanNextRaw]
    | cons b rest =>
      rcases hsr : scanNextRaw (b :: rest) with ⟨t, lex, rst, e⟩
      have hne : t ≠ Tok.EOF := by
        have h := scanNextRaw_ne_eof b rest
        rw [hsr] at h
        exact h
      have hlx : lex ≠ [] := by
        have h := scanNextRaw_lex_ne b rest
        rw [hsr] at h
        exact h
      simp only [scanNextF, hsr]
      split
      · exact ih rst
      · simp [hlx, hne]

theorem nextLoop_ended_false (input : List Nat) :
    ∀ state acc, (nextLoop state acc input).2.2.2 = false →
      (nextLoop state acc input).2.2.1 = [] := by
  induction input with
  | nil => intro state acc _; simp [nextLoop]
  | cons b rest ih =>
    intro state acc h
    simp only [nextLoop] at h ⊢
    by_cases hs : scanTrans (symT b) state = 0
    · simp [hs] at h
    · simp only [if_neg hs] at h ⊢
      exact ih _ _ h

theorem scanNextF_comment_rest (fuel : Nat) :
    ∀ input, (scanNextF true fuel input).1 = Tok.Comment →
      (scanNextF true fuel input).2.2 = [] := by
  induction fuel with
  | zero => intro input h; simp [scanNextF] at h
  | succ fuel ih =>
    intro input h
    cases input with
    | nil => simp [scanNextF, scanNextRaw] at h
    | cons b rest =>
      rcases hsr : scanNextRaw (b :: rest) with ⟨t, lex, rst, e⟩
      simp only [scanNextF, hsr] at h ⊢
      split at h
      · next hc =>
        rw [if_pos hc]
        exact ih rst h
      · next hc =>
        rw [if_neg hc]
        simp only at h
        have he : e = false := by
          rcases e with _ | _
          · rfl
          · exact absurd ⟨trivial, rfl, h⟩ hc
        have hsr2 : nextLoop 0 [] (b :: rest) = (t, lex, rst, e) := hsr
        have h0 := nextLoop_ended_false (b :: rest) 0 []
        rw [hsr2] at h0
        show rst = []
        exact h0 (by rw [he])

theorem tokListF_concat (fuel : Nat) :
    ∀ input, input.length < fuel → concatLex (tokListF fuel input) = input := by
  induction fuel with
  | zero => intro input h; omega
  | succ fuel ih =>
    intro input h
    cases input with
    | nil => simp [tokListF, concatLex]
    | cons b rest =>
      rcases hsr : scanNextRaw (b :: rest) with ⟨t, lex, rst, e⟩
      have hc : lex ++ rst = b :: rest := by
        have h2 := scanNextRaw_concat (b :: rest)
        rw [hsr] at h2
        exact h2
      have hlt : rst.length < (b :: rest).length := by
        have h2 := scanNextRaw_rest_lt b rest
        rw [hsr] at h2
        exact h2
      simp only [tokListF, hsr, if_neg (List.cons_ne_nil b rest)]
      simp only [concatLex, List.map_cons, List.flatten_cons]
      rw [show (List.map (fun p => p.2) (tokListF fuel rst)).flatten =
            concatLex (tokListF fuel rst) from rfl]
      rw [ih rst (by omega), hc]

/-- **C4.**  With comment skipping disabled, concatenating the lexemes of all
tokens returned by successive `Scanner.Next` calls (everything up to the
first `EOF`) reproduces the original input byte sequence exactly. -/
theorem claim_C4 (input : List Nat) : concatLex (tokensNoSkip input) = input :=
  tokListF_concat (input.length + 1) input (Nat.lt_succ_self _)

/-- **C10.**  A token returned by `Scanner.Next` (under either comment
setting) has an empty lexeme exactly when its type is `EOF`: every non-`EOF`
token covers at least one input byte, and the `EOF` token is always empty. -/
theorem claim_C10 (skip : Bool) (input : List Nat) :
    ((scanNext skip input).2.1 = [] ↔ (scanNext skip input).1 = Tok.EOF) :=
  scanNextF_empty_iff skip (input.length + 1) input

/-- **C6, counterexample.**  With comment skipping enabled, `Scanner.Next`
does return a `Comment` token when the input ends inside a comment that is
not terminated by a newline: on the one-byte input `"#"` the first call
returns `(Comment, "#")`. -/
theorem claim_C6_counterexample :
    scanNext true (strBytes "#") = (Tok.Comment, strBytes "#", []) := by
  decide

/-- **C6, amended.**  With comment skipping enabled, the only `Comment`
token `Scanner.Next` can return is the final token of the stream: whenever a
`Comment` token is returned, the input is already exhausted (the comment ran
into the end of input without a terminating newline, which bypasses the
skip-and-recurse branch).  A comment terminated by a newline is never
returned. -/
theorem claim_C6 (input : List Nat) (h : (scanNext true input).1 = Tok.Comment) :
    (scanNext true input).2.2 = [] :=
  scanNextF_comment_rest (input.length + 1) input h

/-- Witness for the amended C6 at the input `"#"`: the hypothesis holds and
the remaining input is indeed empty. -/
theorem claim_C6_witness :
    (scanNext true (strBytes "#")).1 = Tok.Comment ∧
      (scanNext true (strBytes "#")).2.2 = [] :=
  ⟨by decide, claim_C6 (strBytes "#") (by decide)⟩

/-- **C8.**  Once the underlying input is exhausted (no unconsumed bytes
remain), every later `Scanner.Next` call returns `(EOF, "")` and every later
`Parser.Next` call returns the `EndOfFile` value (`none` here, standing for
`(EndOfFile, nil)`); both leave the state unchanged, so the result is
permanent for all subsequent calls. -/
theorem claim_C8 (skip sw : Bool) :
    scanStep skip ⟨[], sw⟩ = (Tok.EOF, [], ⟨[], sw⟩) ∧
      parserNext ⟨[], sw⟩ = ([], none, ⟨[], sw⟩) := by
  cases skip <;> cases sw <;> exact ⟨rfl, rfl⟩

theorem scanStep_rem_le (skip : Bool) (s : Scan) :
    (scanStep skip s).2.2.rem.length ≤ s.rem.length := by
  rcases h : scanNext skip s.rem with ⟨t, lex, rest⟩
  have h2 := scanNextF_rest_le skip (s.rem.length + 1) s.rem
  rw [show scanNextF skip (s.rem.length + 1) s.rem = scanNext skip s.rem from rfl, h] at h2
  simp only [scanStep, h]
  exact h2

theorem scanStep_rem_lt (skip : Bool) (s : Scan) (h : (scanStep skip s).1 ≠ Tok.EOF) :
    (scanStep skip s).2.2.rem.length < s.rem.length := by
  rcases hs : scanNext skip s.rem with ⟨t, lex, rest⟩
  have ht : t ≠ Tok.EOF := by
    simp only [scanStep, hs] at h
    exact h
  have h2 := scanNextF_rest_lt skip (s.rem.length + 1) s.rem
  rw [show scanNextF skip (s.rem.length + 1) s.rem = scanNext skip s.rem from rfl, hs] at h2
  simp only [scanStep, hs]
  exact h2 ht

theorem skipLineGo_le (l : List Nat) : ∀ sw, (skipLineGo sw l).1.length ≤ l.length := by
  induction l with
  | nil => intro sw; simp [skipLineGo]
  | cons b rest ih =>
    intro sw
    simp only [skipLineGo]
    by_cases hb : b = 10
    · simp [hb]
    · simp only [if_neg hb]
      exact le_trans (ih false) (by simp)

theorem skipLineS_le (s : Scan) : (skipLineS s).rem.length ≤ s.rem.length := by
  unfold skipLineS
  by_cases h : s.sw
  · simp [h]
  · rcases hg : skipLineGo s.sw s.rem with ⟨rest, sw⟩
    have h2 := skipLineGo_le s.rem s.sw
    rw [hg] at h2
    simp [h, hg]
    exact h2

theorem skipBlankF_le (fuel : Nat) :
    ∀ s, (skipBlankF fuel s).2.2.rem.length ≤ s.rem.length := by
  induction fuel with
  | zero => intro s; simp [skipBlankF]
  | succ fuel ih =>
    intro s
    rcases h : scanStep true s with ⟨t, lex, s2⟩
    have hle := scanStep_rem_le true s
    rw [h] at hle
    simp only [skipBlankF, h]
    split
    · exact le_trans (ih s2) hle
    · exact hle

theorem skipBlankF_lt (fuel : Nat) :
    ∀ s, (skipBlankF fuel s).1 ≠ Tok.EOF →
      (skipBlankF fuel s).2.2.rem.length < s.rem.length := by
  induction fuel with
  | zero => intro s h; simp [skipBlankF] at h
  | succ fuel ih =>
    intro s h
    rcases hs : scanStep true s with ⟨t, lex, s2⟩
    simp only [skipBlankF, hs] at h ⊢
    split at h
    · next hc =>
      rw [if_pos hc]
      have hlt : s2.rem.length < s.rem.length := by
        have h3 := scanStep_rem_lt true s
        rw [hs] at h3
        apply h3
        show t ≠ Tok.EOF
        rcases hc with hc | hc <;> rw [hc] <;> intro hx <;> cases hx
      exact lt_trans (ih s2 h) hlt
    · next hc =>
      rw [if_neg hc]
      have h2 := scanStep_rem_lt true s
      rw [hs] at h2
      exact h2 h

theorem runMachine_le (m : Machine σ) (interp : σ → Act α) (empty : α) (fuel : Nat) :
    ∀ state e s, (runMachine m interp empty fuel state e s).2.rem.length ≤ s.rem.length := by
  induction fuel with
  | zero => intro state e s; simp [runMachine]
  | succ fuel ih =>
    intro state e s
    rcases hs : scanStep true s with ⟨t, lex, s2⟩
    have hle := scanStep_rem_le true s
    rw [hs] at hle
    simp only [runMachine, hs]
    split
    · exact hle
    · split
      · exact hle
      · split
        · exact le_trans (ih _ _ s2) hle
        · exact le_trans (ih _ _ s2) hle
        · exact hle
        · split
          · exact le_trans (ih _ _ s2) hle
          · exact hle

theorem parserStepM_res_lt (vm : Machine VAct) (fm : Machine FAct) (s : Scan)
    (h : (parserStepM vm fm s).1 ≠ StepRes.eof) :
    (parserStepM vm fm s).2.rem.length < s.rem.length := by
  rcases hsb : skipBlank s with ⟨t, lex, s1⟩
  have hble : s1.rem.length ≤ s.rem.length := by
    have h2 := skipBlankF_le (s.rem.length + 1) s
    rw [show skipBlankF (s.rem.length + 1) s = skipBlank s from rfl, hsb] at h2
    exact h2
  have hblt : t ≠ Tok.EOF → s1.rem.length < s.rem.length := by
    intro ht
    have h2 := skipBlankF_lt (s.rem.length + 1) s
    rw [show skipBlankF (s.rem.length + 1) s = skipBlank s from rfl, hsb] at h2
    exact h2 ht
  simp only [parserStepM, hsb] at h ⊢
  split at h
  · next hte => simp [if_pos hte] at h
  · next hte =>
    rw [if_neg hte]
    have hlt : s1.rem.length < s.rem.length := hblt hte
    split
    · next het =>
      split
      · next hrun =>
        exact lt_of_le_of_lt
          (by
            have h2 := runMachine_le vm vertexInterp vzero (s1.rem.length + 2) 0 vzero s1
            rw [hrun] at h2
            exact h2)
          hlt
      · next hrun =>
        refine lt_of_le_of_lt (le_trans (skipLineS_le _) ?_) hlt
        have h2 := runMachine_le vm vertexInterp vzero (s1.rem.length + 2) 0 vzero s1
        rw [hrun] at h2
        exact h2
    · next het =>
      split
      · next hrun =>
        exact lt_of_le_of_lt
          (by
            have h2 := runMachine_le fm faceInterp fzero (s1.rem.length + 2) 0 fzero s1
            rw [hrun] at h2
            exact h2)
          hlt
      · next hrun =>
        refine lt_of_le_of_lt (le_trans (skipLineS_le _) ?_) hlt
        have h2 := runMachine_le fm faceInterp fzero (s1.rem.length + 2) 0 fzero s1
        rw [hrun] at h2
        exact h2
    · exact lt_of_le_of_lt (skipLineS_le _) hlt
    · exact lt_of_le_of_lt (skipLineS_le _) hlt

theorem parserNextFM_inv (vm : Machine VAct) (fm : Machine FAct) :
    ∀ f1 f2 s, s.rem.length < f1 → s.rem.length < f2 →
      parserNextFM vm fm f1 s = parserNextFM vm fm f2 s := by
  intro f1
  induction f1 with
  | zero => intro f2 s h1 h2; omega
  | succ f1 ih =>
    intro f2 s h1 h2
    cases f2 with
    | zero => omega
    | succ f2 =>
      rcases hst : parserStepM vm fm s with ⟨res, s2⟩
      cases res with
      | produced t r => simp [parserNextFM, hst]
      | eof => simp [parserNextFM, hst]
      | skip d =>
        have hlt : s2.rem.length < s.rem.length := by
          have h3 := parserStepM_res_lt vm fm s (by rw [hst]; intro hx; cases hx)
          rw [hst] at h3
          exact h3
        simp only [parserNextFM, hst]
        rw [ih f2 s2 (by omega) (by omega)]

theorem parserNextM_skip (vm : Machine VAct) (fm : Machine FAct) (s : Scan) (d : Diag)
    (s2 : Scan) (h : parserStepM vm fm s = (.skip d, s2)) :
    parserNextM vm fm s =
      (d :: (parserNextM vm fm s2).1, (parserNextM vm fm s2).2) := by
  have hlt : s2.rem.length < s.rem.length := by
    have h3 := parserStepM_res_lt vm fm s (by rw [h]; intro hx; cases hx)
    rw [h] at h3
    exact h3
  show parserNextFM vm fm (s.rem.length + 1) s = _
  simp only [parserNextFM, h]
  rw [parserNextFM_inv vm fm s.rem.length (s2.rem.length + 1) s2 (by omega) (by omega)]
  rfl

theorem parserNextM_produced (vm : Machine VAct) (fm : Machine FAct) (s : Scan)
    (t : EType) (r : PRec) (s2 : Scan) (h : parserStepM vm fm s = (.produced t r, s2)) :
    parserNextM vm fm s = ([], some (t, r), s2) := by
  show parserNextFM vm fm (s.rem.length + 1) s = _
  simp [parserNextFM, h]

theorem parserNextM_eof (vm : Machine VAct) (fm : Machine FAct) (s : Scan)
    (s2 : Scan) (h : parserStepM vm fm s = (.eof, s2)) :
    parserNextM vm fm s = ([], none, s2) := by
  show parserNextFM vm fm (s.rem.length + 1) s = _
  simp [parserNextFM, h]

theorem parserNextFM_some_lt (vm : Machine VAct) (fm : Machine FAct) :
    ∀ fuel s, ((parserNextFM vm fm fuel s).2.1).isSome →
      (parserNextFM vm fm fuel s).2.2.rem.length < s.rem.length := by
  intro fuel
  induction fuel with
  | zero => intro s h; simp [parserNextFM] at h
  | succ fuel ih =>
    intro s h
    rcases hst : parserStepM vm fm s with ⟨res, s2⟩
    have hne : res ≠ StepRes.eof → s2.rem.length < s.rem.length := by
      intro hres
      have h3 := parserStepM_res_lt vm fm s (by rw [hst]; exact hres)
      rw [hst] at h3
      exact h3
    cases res with
    | produced t r =>
      simp only [parserNextFM, hst]
      exact hne (by intro hx; cases hx)
    | eof => simp [parserNextFM, hst] at h
    | skip d =>
      simp only [parserNextFM, hst] at h ⊢
      exact lt_trans (ih s2 h) (hne (by intro hx; cases hx))

theorem parserNextM_some_lt (vm : Machine VAct) (fm : Machine FAct) (s : Scan)
    (h : ((parserNextM vm fm s).2.1).isSome) :
    (parserNextM vm fm s).2.2.rem.length < s.rem.length :=
  parserNextFM_some_lt vm fm (s.rem.length + 1) s h

theorem parserAllM_none (vm : Machine VAct) (fm : Machine FAct) (s : Scan)
    (ds : List Diag) (s2 : Scan) (h : parserNextM vm fm s = (ds, none, s2)) :
    parserAllM vm fm s = ([], ds, s2) := by
  show parserAllFM vm fm (s.rem.length + 1) s = _
  simp [parserAllFM, h]

theorem parserAllFM_inv (vm : Machine VAct) (fm : Machine FAct) :
    ∀ f1 f2 s, s.rem.length < f1 → s.rem.length < f2 →
      parserAllFM vm fm f1 s = parserAllFM vm fm f2 s := by
  intro f1
  induction f1 with
  | zero => intro f2 s h1 h2; omega
  | succ f1 ih =>
    intro f2 s h1 h2
    cases f2 with
    | zero => omega
    | succ f2 =>
      rcases hnx : parserNextM vm fm s with ⟨ds, o, s2⟩
      cases o with
      | none => simp [parserAllFM, hnx]
      | some tr =>
        have hlt : s2.rem.length < s.rem.length := by
          have h3 := parserNextM_some_lt vm fm s (by rw [hnx]; rfl)
          rw [hnx] at h3
          exact h3
        simp only [parserAllFM, hnx]
        rw [ih f2 s2 (by omega) (by omega)]

theorem parserAllM_some (vm : Machine VAct) (fm : Machine FAct) (s : Scan)
    (ds : List Diag) (tr : EType × PRec) (s2 : Scan)
    (h : parserNextM vm fm s = (ds, some tr, s2)) :
    parserAllM vm fm s =
      (tr :: (parserAllM vm fm s2).1, ds ++ (parserAllM vm fm s2).2.1,
        (parserAllM vm fm s2).2.2) := by
  have hlt : s2.rem.length < s.rem.length := by
    have h3 := parserNextM_some_lt vm fm s (by rw [h]; rfl)
    rw [h] at h3
    exact h3
  show parserAllFM vm fm (s.rem.length + 1) s = _
  simp only [parserAllFM, h]
  rw [parserAllFM_inv vm fm s.rem.length (s2.rem.length + 1) s2 (by omega) (by omega)]
  rfl

theorem parserNextEmpty (sw : Bool) : parserNext ⟨[], sw⟩ = ([], none, ⟨[], sw⟩) := by
  cases sw <;> rfl

theorem c5Aux (quads : List ((List Nat × String) × (List Nat × VertexRec)))
    (hbad : ∀ q ∈ quads, lineSkipsErr q.1.1 q.1.2)
    (hgood : ∀ q ∈ quads, lineGivesVertex q.2.1 q.2.2) :
    ∀ sw,
      parserAll ⟨(quads.map fun q => q.1.1 ++ q.2.1).flatten, sw⟩ =
        (quads.map fun q => (EType.Vertex, PRec.vertex q.2.2),
          quads.map fun q => (⟨true, q.1.2⟩ : Diag),
          ⟨[], if quads = [] then sw else true⟩) := by
  induction quads with
  | nil =>
    intro sw
    cases sw <;> rfl
  | cons q rest ih =>
    intro sw
    obtain ⟨⟨bad, msg⟩, good, v⟩ := q
    have hmem : (⟨⟨bad, msg⟩, good, v⟩ :
        (List Nat × String) × (List Nat × VertexRec)) ∈
        (⟨⟨bad, msg⟩, good, v⟩ :: rest :
          List ((List Nat × String) × (List Nat × VertexRec))) := List.mem_cons_self _ _
    have hb := hbad _ hmem
    have hg := hgood _ hmem
    set rj := (rest.map fun q => q.1.1 ++ q.2.1).flatten with hrj
    have hinput : ((((⟨⟨bad, msg⟩, good, v⟩ :: rest) :
          List ((List Nat × String) × (List Nat × VertexRec))).map
            fun q => q.1.1 ++ q.2.1).flatten) = bad ++ (good ++ rj) := by
      simp [List.flatten_cons, List.append_assoc]
    rw [show (⟨(((⟨⟨bad, msg⟩, good, v⟩ :: rest) :
          List ((List Nat × String) × (List Nat × VertexRec))).map
            fun q => q.1.1 ++ q.2.1).flatten, sw⟩ : Scan) =
        ⟨bad ++ (good ++ rj), sw⟩ from by rw [hinput]]
    have hstep1 : parserStepM vertexMachine faceMachine ⟨bad ++ (good ++ rj), sw⟩ =
        (.skip ⟨true, msg⟩, ⟨good ++ rj, true⟩) := hb (good ++ rj) sw
    have hstep2 : parserStepM vertexMachine faceMachine ⟨good ++ rj, true⟩ =
        (.produced .Vertex (.vertex v), ⟨rj, true⟩) := hg rj true
    have hnext2 := parserNextM_produced vertexMachine faceMachine _ _ _ _ hstep2
    have hnext1 := parserNextM_skip vertexMachine faceMachine _ _ _ hstep1
    rw [hnext2] at hnext1
    have hall := parserAllM_some vertexMachine faceMachine ⟨bad ++ (good ++ rj), sw⟩
      [⟨true, msg⟩] (EType.Vertex, PRec.vertex v) ⟨rj, true⟩ (by rw [hnext1])
    show parserAllM vertexMachine faceMachine _ = _
    rw [hall]
    have ihr := ih (fun q hq => hbad q (List.mem_cons_of_mem _ hq))
      (fun q hq => hgood q (List.mem_cons_of_mem _ hq)) true
    rw [show parserAllM vertexMachine faceMachine ⟨rj, true⟩ = parserAll ⟨rj, true⟩ from rfl]
    rw [ihr]
    simp

theorem scanTrans_symT_foundEol (b : Nat) : scanTrans (symT b) 2 = 0 := by
  unfold symT
  split_ifs <;> rfl

theorem scanNextF_eol (skip : Bool) (fuel : Nat) (rest : List Nat) :
    scanNextF skip (fuel + 1) (10 :: rest) = (.EOL, [10], rest) := by
  cases rest with
  | nil => cases skip <;> rfl
  | cons c cs =>
    have hraw : scanNextRaw (10 :: c :: cs) = (.EOL, [10], c :: cs, true) := by
      show nextLoop 2 [10] (c :: cs) = _
      show (if scanTrans (symT c) 2 = 0 then (tokenTypeMap 2, [10].reverse, c :: cs, true)
            else nextLoop (scanTrans (symT c) 2) (c :: [10]) cs) = _
      rw [scanTrans_symT_foundEol]
      rfl
    show (match scanNextRaw (10 :: c :: cs) with
          | (t, lex, rest, ended) =>
            if skip ∧ ended ∧ t = Tok.Comment then scanNextF skip fuel rest
            else (t, lex, rest)) = _
    rw [hraw]
    simp

theorem scanStep_eol (sw : Bool) (rest : List Nat) :
    scanStep true ⟨10 :: rest, sw⟩ = (.EOL, [10], ⟨rest, true⟩) := by
  show (match scanNext true (10 :: rest) with
        | (t, lex, rst) =>
          (t, lex, (⟨rst, if lex = [] then sw else decide (lex.getLast? = some 10)⟩ : Scan))) = _
  rw [show scanNext true (10 :: rest) = scanNextF true (rest.length + 1 + 1) (10 :: rest) from rfl,
    scanNextF_eol]
  rfl

theorem runMachine_exit_eol {σ α : Type} (m : Machine σ) (interp : σ → Act α) (empty : α)
    (f st : Nat) (e : α) (rest : List Nat) (sw : Bool)
    (h : (m.matrix.getD st []).getD 5 0 = 0) :
    runMachine m interp empty (f + 1) st e ⟨10 :: rest, sw⟩ = (.success e, ⟨rest, true⟩) := by
  simp only [runMachine]
  rw [scanStep_eol]
  show (let st2 := (m.matrix.getD st []).getD (Tok.idx Tok.EOL) 0
        if st2 = 0 then ((MOut.success e, (⟨rest, true⟩ : Scan)) : MOut α × Scan)
        else if st2 = 1 then
          (MOut.fail ((m.errors.getD st []).getD (Tok.idx Tok.EOL) ""), ⟨rest, true⟩)
        else
          match m.actions.getD st2 MAct.noop with
          | MAct.noop => runMachine m interp empty f st2 e ⟨rest, true⟩
          | MAct.clear => runMachine m interp empty f st2 empty ⟨rest, true⟩
          | MAct.reject => (MOut.fail "action invoked in a reserved state", ⟨rest, true⟩)
          | MAct.setter a =>
            match interp a [10] e with
            | some e2 => runMachine m interp empty f st2 e2 ⟨rest, true⟩
            | none => (MOut.fail "semantic conversion error", ⟨rest, true⟩)) = _
  show (if (m.matrix.getD st []).getD (Tok.idx Tok.EOL) 0 = 0 then
          ((MOut.success e, (⟨rest, true⟩ : Scan)) : MOut α × Scan)
        else _) = _
  rw [show Tok.idx Tok.EOL = 5 from rfl, h]
  rfl

set_option maxRecDepth 40000 in
/-- C5: for a file alternating one malformed line and one valid `v` line,
repeated `Parser.Next` calls terminate, produce exactly the `N` vertex
records in their original input order while emitting exactly `N` error
diagnostics in order, consume the whole input, and the next call then
reports `EndOfFile`: the dispatcher never halts on malformed input before
end of input. -/
theorem claim_C5 (quads : List ((List Nat × String) × (List Nat × VertexRec)))
    (hbad : ∀ q ∈ quads, lineSkipsErr q.1.1 q.1.2)
    (hgood : ∀ q ∈ quads, lineGivesVertex q.2.1 q.2.2) :
    parserAll ⟨(quads.map fun q => q.1.1 ++ q.2.1).flatten, false⟩ =
      (quads.map fun q => (EType.Vertex, PRec.vertex q.2.2),
        quads.map fun q => (⟨true, q.1.2⟩ : Diag),
        ⟨[], if quads = [] then false else true⟩) ∧
    (parserNext
      (parserAll ⟨(quads.map fun q => q.1.1 ++ q.2.1).flatten, false⟩).2.2).2.1 = none := by
  refine ⟨c5Aux quads hbad hgood false, ?_⟩
  rw [c5Aux quads hbad hgood false]
  show (parserNext ⟨[], if quads = [] then false else true⟩).2.1 = none
  rw [parserNextEmpty]

theorem xLineSkips : lineSkipsErr (strBytes "x\n") "error in the name of the element type" := by
  intro rest sw
  rw [parserStep_lit]
  rfl

theorem yLineSkips : lineSkipsErr (strBytes "y 1\n") "error in the name of the element type" := by
  intro rest sw
  rw [parserStep_lit]
  rfl

theorem vLineGood : lineGivesVertex (strBytes "v 1 2 3\n") ⟨1, 2, 3, 0⟩ := by
  intro rest sw
  rw [parserStep_lit]
  have hstep : parserStepM vertexMachineLit faceMachineLit
      ⟨strBytes "v 1 2 3\n" ++ rest, sw⟩ =
      (match runMachine vertexMachineLit vertexInterp vzero
          ((strBytes " 1 2 3\n" ++ rest).length + 2) 0 vzero
          ⟨strBytes " 1 2 3\n" ++ rest, false⟩ with
        | (.success v, s3) => (.produced .Vertex (.vertex v), s3)
        | (.fail msg, s3) => (.skip ⟨true, msg⟩, skipLineS s3)) := rfl
  rw [hstep]
  have hlen : (strBytes " 1 2 3\n" ++ rest).length + 2 = rest.length + 2 + 1 + 6 := by
    rw [List.length_append]
    have h7 : (strBytes " 1 2 3\n").length = 7 := rfl
    omega
  rw [hlen]
  have hchain : runMachine vertexMachineLit vertexInterp vzero (rest.length + 2 + 1 + 6) 0 vzero
      ⟨strBytes " 1 2 3\n" ++ rest, false⟩ =
      runMachine vertexMachineLit vertexInterp vzero (rest.length + 2 + 1) 7
        ⟨1, 2, 3, 0⟩ ⟨10 :: rest, false⟩ := rfl
  rw [hchain, runMachine_exit_eol _ _ _ _ _ _ _ _ (by decide)]

/-- Witness for C5 at a concrete two-quad file. -/
theorem claim_C5_witness :
    parserAll ⟨(wQuads.map fun q => q.1.1 ++ q.2.1).flatten, false⟩ =
      (wQuads.map fun q => (EType.Vertex, PRec.vertex q.2.2),
        wQuads.map fun q => (⟨true, q.1.2⟩ : Diag),
        ⟨[], if wQuads = [] then false else true⟩) ∧
    (parserNext
      (parserAll ⟨(wQuads.map fun q => q.1.1 ++ q.2.1).flatten, false⟩).2.2).2.1 = none :=
  claim_C5 wQuads
    (by
      intro q hq
      simp only [wQuads, List.mem_cons, List.not_mem_nil, or_false] at hq
      rcases hq with h | h
      · rw [h]; exact xLineSkips
      · rw [h]; exact yLineSkips)
    (by
      intro q hq
      simp only [wQuads, List.mem_cons, List.not_mem_nil, or_false] at hq
      rcases hq with h | h
      · rw [h]; exact vLineGood
      · rw [h]; exact vLineGood)
